import Mathlib

set_option maxRecDepth 8000

/-!
Verification of the résumé-tailoring gate pipeline.

The development shallowly embeds the pure string-processing core of the
pipeline (`src/run.py`, `src/latex_validate.py`, `src/notion_client.py`):
the sanitizer, the preamble merger, the structural checks, the per-record
control flow of `main`, and the query construction of `fetch_by_status`.

Strings are modelled as `List Char` internally (wrapped in `String` at the
interface), and each Python string operation used by the source is embedded
as an executable Lean function.  Python's `re.sub`/`re.findall` calls are
embedded by the deterministic scans they perform on the concrete patterns
appearing in the source.  Character-class predicates (`\s`, `\w`,
`str.strip`, `str.splitlines`) are embedded over the character repertoire
relevant to the pipeline; the Unicode tables are reproduced for the
code points the source manipulates.
-/

/-- Python whitespace (`str.strip`, `str.isspace`, and `re` `\s`). -/
def pyIsSpace (c : Char) : Bool :=
  c = ' ' || c = '\t' || c = '\n' || c = '\x0d' || c = '\x0b' || c = '\x0c' ||
  c = '\x1c' || c = '\x1d' || c = '\x1e' || c = '\x1f' || c = '\x85' ||
  c = '\xa0' || c = '\u1680' ||
  ('\u2000' ≤ c && c ≤ '\u200a') ||
  c = '\u2028' || c = '\u2029' || c = '\u202f' || c = '\u205f' || c = '\u3000'

/-- Word characters for `re` `\b` (`[a-zA-Z0-9_]`; the source's inputs are
ASCII at the relevant positions). -/
def pyIsWord (c : Char) : Bool := c.isAlphanum || c = '_'

/-- Characters matched by `[a-zA-Z0-9_-]` in the code-fence pattern. -/
def isFenceWordChar (c : Char) : Bool := c.isAlphanum || c = '_' || c = '-'

/-- Line breaks recognised by Python `str.splitlines`. -/
def isLineBreak (c : Char) : Bool :=
  c = '\n' || c = '\x0d' || c = '\x0b' || c = '\x0c' ||
  c = '\x1c' || c = '\x1d' || c = '\x1e' || c = '\x85' ||
  c = '\u2028' || c = '\u2029'

/-- Tail-recursive length (kernel-reduction friendly). -/
def lengthGo : List Char → Nat → Nat
  | [], n => n
  | _ :: rest, n => lengthGo rest (n + 1)

def lenTR (l : List Char) : Nat := lengthGo l 0

/-- Tail-recursive count of a character. -/
def countCharGo (c : Char) : List Char → Nat → Nat
  | [], n => n
  | a :: rest, n => countCharGo c rest (if a = c then n + 1 else n)

def countChar (c : Char) (l : List Char) : Nat := countCharGo c l 0

/-- `s.replace(old, new)` for a one-character `old`. -/
def replaceCharL (c : Char) (rep : List Char) : List Char → List Char
  | [] => []
  | a :: rest =>
    if a = c then rep ++ replaceCharL c rep rest
    else a :: replaceCharL c rep rest

/-- `s.replace(old, new)` (non-overlapping, left to right); the fuel is the
input length, consumed one unit per scan step, so it never runs out. -/
def replaceFuel (old new : List Char) : Nat → List Char → List Char
  | _, [] => []
  | 0, l => l
  | n + 1, c :: rest =>
    if old.isPrefixOf (c :: rest) then
      new ++ replaceFuel old new n (List.drop (old.length - 1) rest)
    else
      c :: replaceFuel old new n rest

def replaceL (old new s : List Char) : List Char := replaceFuel old new (lenTR s) s

/-- `s.replace(old, new, 1)`: replace only the first occurrence. -/
def replace1L (old new : List Char) : List Char → List Char
  | [] => []
  | c :: rest =>
    if old.isPrefixOf (c :: rest) then
      new ++ List.drop (old.length - 1) rest
    else
      c :: replace1L old new rest

def findGo (needle : List Char) : List Char → Nat → Option Nat
  | [], _ => none
  | c :: rest, i =>
    if needle.isPrefixOf (c :: rest) then some i else findGo needle rest (i + 1)

/-- `s.find(needle)`: index of the first occurrence (`none` for -1). -/
def findL (needle hay : List Char) : Option Nat :=
  if needle = [] then some 0 else findGo needle hay 0

def rfindGo (needle : List Char) : List Char → Nat → Option Nat → Option Nat
  | [], i, acc => if needle = [] then some i else acc
  | c :: rest, i, acc =>
    rfindGo needle rest (i + 1)
      (if needle.isPrefixOf (c :: rest) then some i else acc)

/-- `s.rfind(needle)`: index of the last occurrence (`none` for -1). -/
def rfindL (needle hay : List Char) : Option Nat := rfindGo needle hay 0 none

/-- `needle in hay`. -/
def containsL (needle hay : List Char) : Bool := (findL needle hay).isSome

/-- `s.lstrip()`. -/
def pyLstrip (l : List Char) : List Char := l.dropWhile pyIsSpace

/-- Drop trailing whitespace: `ws` buffers a pending whitespace run. -/
def rstripGo (ws : List Char) : List Char → List Char
  | [] => []
  | c :: rest =>
    if pyIsSpace c then rstripGo (ws ++ [c]) rest
    else ws ++ c :: rstripGo [] rest

/-- `s.strip()`: whitespace removed from both ends. -/
def pyStrip (l : List Char) : List Char := rstripGo [] (l.dropWhile pyIsSpace)

/-- `s.splitlines()`; `cur` accumulates the current line reversed. -/
def splitlinesGo (cur : List Char) : List Char → List (List Char)
  | [] => if cur = [] then [] else [cur.reverse]
  | '\x0d' :: '\n' :: rest => cur.reverse :: splitlinesGo [] rest
  | c :: rest =>
    if isLineBreak c then cur.reverse :: splitlinesGo [] rest
    else splitlinesGo (c :: cur) rest

def splitlinesL (l : List Char) : List (List Char) := splitlinesGo [] l

/-- `"\n".join(lines)`. -/
def joinNl : List (List Char) → List Char
  | [] => []
  | [x] => x
  | x :: xs => x ++ '\n' :: joinNl xs

/-- Index of the last `'\n'` in the list, if any. -/
def lastNlGo : List Char → Nat → Option Nat → Option Nat
  | [], _, acc => acc
  | c :: rest, i, acc => lastNlGo rest (i + 1) (if c = '\n' then some i else acc)

def lastNlIdx (l : List Char) : Option Nat := lastNlGo l 0 none

/-! ### Tokens and fixed strings from the source -/

def dcTok : List Char := "\\documentclass".toList

def bdTok : List Char := "\\begin\x7bdocument\x7d".toList

def edTok : List Char := "\\end\x7bdocument\x7d".toList

def timesTok : List Char := "\\times".toList

def pmTok : List Char := "\\pm".toList

def fenceTok : List Char := "\x60\x60\x60".toList

def textbfTok : List Char := "\\textbf\x7b".toList

def itemTok : List Char := "\\item".toList

def skillsMarker : String := "\\section*\x7b\\color\x7bmygreen\x7d\x7bSKILLS\x7d\x7d"

def experienceMarker : String := "\\section*\x7b\\color\x7bmygreen\x7d\x7bEXPERIENCE\x7d\x7d"

def projectsMarker : String := "\\section*\x7b\\color\x7bmygreen\x7d\x7bPROJECTS\x7d\x7d"

/-- The `required` list of `require_same_section_markers`. -/
def requiredMarkers : List String := [skillsMarker, experienceMarker, projectsMarker]

/-! ### `escape_tex_specials`

Each pass embeds `re.sub(rf"(?<!\\){re.escape(ch)}", rep, out)`: replace each
occurrence of `ch` whose preceding character in the scanned string is not a
backslash.  `prev` carries that preceding character (`none` at the start).

Note on the replacement strings: Python processes replacement templates, so
the `\t` in `r"\textasciicircum{}"` and `r"\textasciitilde{}"` denotes a TAB
character, while `\&`, `\%`, `\$`, `\#`, `\_` stay two-character sequences
(`&`, `%`, `$`, `#`, `_` are not ASCII letters). -/

def subNP (ch : Char) (rep : List Char) : Option Char → List Char → List Char
  | _, [] => []
  | prev, c :: rest =>
    if c = ch ∧ prev ≠ some '\\' then rep ++ subNP ch rep (some c) rest
    else c :: subNP ch rep (some c) rest

def repAmp : List Char := "\\&".toList

def repPercent : List Char := "\\%".toList

def repDollar : List Char := "\\$".toList

def repHash : List Char := "\\#".toList

def repUnderscore : List Char := "\\_".toList

def repCircum : List Char := "\textasciicircum\x7b\x7d".toList

def repTilde : List Char := "\textasciitilde\x7b\x7d".toList

/-- `escape_tex_specials`, on character lists: the seven `re.sub` passes in
the source's dictionary order `& % $ # _ ^ ~`. -/
def escapeL (l : List Char) : List Char :=
  subNP '~' repTilde none
    (subNP '^' repCircum none
      (subNP '_' repUnderscore none
        (subNP '#' repHash none
          (subNP '$' repDollar none
            (subNP '%' repPercent none
              (subNP '&' repAmp none l))))))

def escape_tex_specials (s : String) : String := (escapeL s.toList).asString

/-! ### `normalize_unicode` -/

def quoteChar : Char := Char.ofNat 39

def dquoteChar : Char := Char.ofNat 34

/-- The nine `str.replace` calls of `normalize_unicode`, in source order. -/
def normalizeL (l : List Char) : List Char :=
  replaceCharL '\xa0' [' ']
    (replaceCharL '\xd7' ['x']
      (replaceCharL '\u2022' ['-']
        (replaceCharL '\u201d' [dquoteChar]
          (replaceCharL '\u201c' [dquoteChar]
            (replaceCharL '\u2019' [quoteChar]
              (replaceCharL '\u2018' [quoteChar]
                (replaceCharL '\u2014' ['-']
                  (replaceCharL '\u2013' ['-'] l))))))))

def normalize_unicode (s : String) : String := (normalizeL s.toList).asString

/-! ### `sanitize_latex`, stage by stage -/

/-- `tex.replace("\ufeff", "").replace("\x00", "")`. -/
def stripBomNul (l : List Char) : List Char :=
  replaceCharL '\x00' [] (replaceCharL '\ufeff' [] l)

/-- `tex.replace` of the math commands: `\times` to `x`, `\pm` to plus-slash-minus. -/
def replaceMathCmds (l : List Char) : List Char :=
  replaceL pmTok "+/-".toList (replaceL timesTok ['x'] l)

/-- `re.sub(r"^\s*```[a-zA-Z0-9_-]*\s*\n", "", tex)`: the pattern is anchored
at the start; the greedy trailing `\s*` backtracks to the last newline inside
the whitespace run that follows the fence word. -/
def dropLeadingFence (l : List Char) : List Char :=
  let afterWs := l.dropWhile pyIsSpace
  if fenceTok.isPrefixOf afterWs then
    let afterWord := (afterWs.drop 3).dropWhile isFenceWordChar
    let wsRun := afterWord.takeWhile pyIsSpace
    match lastNlIdx wsRun with
    | none => l
    | some k => afterWord.drop (k + 1)
  else l

/-- Whether a suffix beginning at a `'\n'` matches the rest of the pattern
`\n\s*```\s*$` (everything after the fence must be whitespace). -/
def trailingFenceAt (rest : List Char) : Bool :=
  let afterWs := rest.dropWhile pyIsSpace
  fenceTok.isPrefixOf afterWs && (afterWs.drop 3).all pyIsSpace

def trailingFenceIdxGo : List Char → Nat → Option Nat
  | [], _ => none
  | c :: rest, i =>
    if c = '\n' && trailingFenceAt rest then some i
    else trailingFenceIdxGo rest (i + 1)

/-- `re.sub(r"\n\s*```\s*$", "", tex)`: remove from the leftmost `'\n'`
followed by optional whitespace, a fence, and trailing whitespace, to the
end of the string. -/
def dropTrailingFence (l : List Char) : List Char :=
  match trailingFenceIdxGo l 0 with
  | none => l
  | some i => l.take i

/-- `start = tex.find(r"\documentclass"); if start != -1: tex = tex[start:]`. -/
def sliceStart (l : List Char) : List Char :=
  match findL dcTok l with
  | none => l
  | some i => l.drop i

/-- `end = tex.rfind(r"\end{document}"); if end != -1: tex = tex[:end+14]`. -/
def sliceEnd (l : List Char) : List Char :=
  match rfindL edTok l with
  | none => l
  | some e => l.take (e + edTok.length)

def dcNoBs : List Char := "documentclass".toList

def upNoBs : List Char := "usepackage".toList

def upTok : List Char := "\\usepackage".toList

/-- The first-line repair: if the first line (left-stripped) starts with
`documentclass` or `usepackage` without the leading backslash, re-insert it
(first occurrence only), then re-join all lines with `'\n'`. -/
def lineRepair (l : List Char) : List Char :=
  match splitlinesL l with
  | [] => []
  | l0 :: rest =>
    let s0 := pyLstrip l0
    let l0a := if dcNoBs.isPrefixOf s0 then replace1L dcNoBs dcTok l0 else l0
    let l0b := if upNoBs.isPrefixOf s0 then replace1L upNoBs upTok l0a else l0a
    joinNl (l0b :: rest)

/-- All transformation stages of `sanitize_latex`, in source order. -/
def sanitizeStages (l : List Char) : List Char :=
  escapeL (normalizeL (lineRepair (sliceEnd (sliceStart
    (dropTrailingFence (dropLeadingFence
      (replaceMathCmds (pyStrip (stripBomNul l)))))))))

inductive LooksReason where
  | emptyOutput : LooksReason
  | missingTokens : List String → LooksReason
  | unbalancedBraces : LooksReason
  | okReason : LooksReason
deriving DecidableEq

inductive PipeErr where
  | emptyLatexField : PipeErr
  | missingStartMarker : String → PipeErr
  | missingEndMarker : PipeErr
  | masterMissingBeginDoc : PipeErr
  | missingSectionMarker : String → PipeErr
  | masterMissingSectionMarker : String → PipeErr
  | fabricatedEntries : List String → PipeErr
  | bulletCountDrift : Int → Int → PipeErr
  | latexInvalid : LooksReason → PipeErr
deriving DecidableEq

instance exceptDecEq {e a : Type} [DecidableEq e] [DecidableEq a] :
    DecidableEq (Except e a)
  | Except.error x, Except.error y =>
    if h : x = y then isTrue (by rw [h]) else isFalse (by intro hc; cases hc; exact h rfl)
  | Except.error _, Except.ok _ => isFalse (by intro hc; cases hc)
  | Except.ok _, Except.error _ => isFalse (by intro hc; cases hc)
  | Except.ok x, Except.ok y =>
    if h : x = y then isTrue (by rw [h]) else isFalse (by intro hc; cases hc; exact h rfl)

/-- `"\n".join(tex.splitlines()[:5])`: the snippet carried by the
missing-start-marker error. -/
def headLines (l : List Char) : String := (joinNl ((splitlinesL l).take 5)).asString

/-- `sanitize_latex`.  The two `raise RuntimeError` sites become the two
error values; otherwise the fully-processed text is returned. -/
def sanitize_latex (tex : String) : Except PipeErr String :=
  let p := sanitizeStages tex.toList
  if ¬ dcTok.isPrefixOf (pyLstrip p) then
    Except.error (PipeErr.missingStartMarker (headLines p))
  else if ¬ containsL edTok p then
    Except.error PipeErr.missingEndMarker
  else
    Except.ok p.asString

/-! ### `merge_with_master_preamble` -/

def merge_with_master_preamble (master tex : String) : Except PipeErr String :=
  match findL bdTok master.toList with
  | none => Except.error PipeErr.masterMissingBeginDoc
  | some i =>
    let preamble := master.toList.take (i + bdTok.length)
    let body :=
      match findL bdTok tex.toList, rfindL edTok tex.toList with
      | some s, some e =>
        if s < e then (tex.toList.drop (s + bdTok.length)).take (e - (s + bdTok.length))
        else tex.toList
      | some _, none => tex.toList
      | none, _ => tex.toList
    Except.ok ((preamble ++ '\n' :: (pyStrip body ++ '\n' :: edTok)).asString)

/-! ### `looks_like_latex_resume` (latex_validate.py) -/

def mustTokens : List String :=
  ["\\documentclass", "\\begin\x7bdocument\x7d", "\\end\x7bdocument\x7d"]

def looks_like_latex_resume (tex : String) : Bool × LooksReason :=
  if tex.toList = [] then (false, LooksReason.emptyOutput)
  else
    let missing := mustTokens.filter (fun m => ¬ containsL m.toList tex.toList)
    if missing ≠ [] then (false, LooksReason.missingTokens missing)
    else if countChar '\x7b' tex.toList ≠ countChar '\x7d' tex.toList then
      (false, LooksReason.unbalancedBraces)
    else (true, LooksReason.okReason)

/-! ### The three mutation guards -/

def firstMissingMarker (doc : String) : Option String :=
  (requiredMarkers.filter (fun m => ¬ containsL m.toList doc.toList)).head?

/-- `require_same_section_markers`: the candidate loop runs first, the master
sanity loop second; each raises at its first missing marker in list order. -/
def require_same_section_markers (master tailored : String) : Except PipeErr Unit :=
  match firstMissingMarker tailored with
  | some m => Except.error (PipeErr.missingSectionMarker m)
  | none =>
    match firstMissingMarker master with
    | some m => Except.error (PipeErr.masterMissingSectionMarker m)
    | none => Except.ok ()

/-- `re.findall(r"\\textbf\{([^}]+)\}", s)` as a character scan: outside an
argument (`none` state), a `\textbf` opener with its brace enters capture
mode; inside (`some buf`, buffer reversed), characters up to the closing
brace are buffered; a close with a non-empty buffer emits the argument,
while an empty argument or a missing closing brace is not a match.  Matches
cannot overlap (a match start needs a backslash, and neither the opener nor
a buffered run before a close can contain one that starts an opener inside
the scanned span), so the scan resumes after the consumed characters exactly
as the regex engine does. -/
def textbfAcc (acc : List String) : Option (List Char) → List Char → List String
  | _, [] => acc.reverse
  | some buf, c :: rest =>
    if c = '\x7d' then
      if buf = [] then textbfAcc acc none rest
      else textbfAcc (buf.reverse.asString :: acc) none rest
    else textbfAcc acc (some (c :: buf)) rest
  | none, '\\' :: 't' :: 'e' :: 'x' :: 't' :: 'b' :: 'f' :: '\x7b' :: rest2 =>
    textbfAcc acc (some []) rest2
  | none, _ :: rest => textbfAcc acc none rest

def textbfArgs (s : String) : List String := textbfAcc [] none s.toList

/-- `require_no_new_companies`: raise iff the candidate's set of `\textbf`
arguments is not a subset of the master's (the source sorts the difference
for the message; membership behaviour is identical). -/
def require_no_new_companies (master tailored : String) : Except PipeErr Unit :=
  let master_bold := (textbfArgs master).dedup
  let tailored_bold := (textbfArgs tailored).dedup
  let new_bold := tailored_bold.filter (fun b => ¬ master_bold.contains b)
  if new_bold = [] then Except.ok ()
  else Except.error (PipeErr.fabricatedEntries new_bold)

def nextIsWordChar : List Char → Bool
  | [] => false
  | c :: _ => pyIsWord c

/-- `len(re.findall(r"\\item\b", latex))` as a character scan.  A `\item`
whose following character is not a word character is counted.  In either
case the scan resumes after the consumed `\item`: no match can start inside
`item`/its following word character (a match start needs a backslash), so
this equals the regex engine's advance-by-one rescan. -/
def countItemsAcc (acc : Nat) : List Char → Nat
  | [] => acc
  | '\\' :: 'i' :: 't' :: 'e' :: 'm' :: rest2 =>
    if nextIsWordChar rest2 then countItemsAcc acc rest2
    else countItemsAcc (acc + 1) rest2
  | _ :: rest => countItemsAcc acc rest

def count_itemize_items (latex : String) : Nat :=
  countItemsAcc 0 latex.toList

/-- `require_bullet_count_stable` (the pipeline always passes
`max_drop=10, max_add=10`). -/
def require_bullet_count_stable (master tailored : String)
    (max_drop max_add : Int) : Except PipeErr Unit :=
  let m : Int := count_itemize_items master
  let t : Int := count_itemize_items tailored
  if t < m - max_drop ∨ t > m + max_add then
    Except.error (PipeErr.bulletCountDrift m t)
  else Except.ok ()

/-! ### The master document (`MASTER_LATEX`, after its `.strip()`) -/

def mChunk0 : String :=
  "\\documentclass[10pt]\x7bextarticle\x7d\n\\usepackage[left=0.4in,right=0.4in,top=0.4in,bottom=0.4in]\x7bgeometry\x7d\n\\usepackage[hidelinks]\x7bhyperref\x7d\n\\usepackage\x7benumitem\x7d\n\\usepackage\x7btitlesec\x7d\n\\usepackage\x7bparskip\x7d\n\\usepackage\x7bxcolor\x7d\n\\definecolor\x7bmygreen\x7d\x7bHTML\x7d\x7b169137\x7d\n\\definecolor\x7bmyblue\x7d\x7bHTML\x7d\x7b1848cc\x7d\n\n\\pagenumbering\x7bgobble\x7d\n\\titleformat\x7b\\section\x7d\x7b\\large\\bfseries\x7d\x7b\x7d\x7b0em\x7d\x7b\x7d\n\\titleformat\x7b\\subsection\x7d\x7b\\bfseries\x7d\x7b\x7d\x7b0em\x7d\x7b\x7d\n"

def mChunk1 : String :=
  "\\setlength\x7b\\parindent\x7d\x7b0pt\x7d\n\n\\title\x7b\\color\x7bmyblue\x7d\x7b\\vspace\x7b-1.5cm\x7d \\LARGE \\textbf\x7bOM KIRANBHAI PATEL\x7d\x7d\x7d\n\\date\x7b\x7d\n\n\\begin\x7bdocument\x7d\n\n\\maketitle\n\\vspace\x7b-2cm\x7d\n\\hrule\n\\begin\x7bcenter\x7d\n+1 (480) 876-1813 \\quad \\href\x7bmailto:ompatel0584@gmail.com\x7d\x7bompatel0584@gmail.com\x7d \\quad \\href\x7bhttps://www.linkedin.com/in/om-patel-1512om/\x7d\x7bwww.linkedin.com/in/om-patel-1512om\x7d \\quad \\href\x7bhttps://www.ompatel.info\x7d\x7bwww.ompatel.info\x7d\n"

def mChunk2 : String :=
  "\\end\x7bcenter\x7d\n\n\\hrule\n\\vspace\x7b-1pt\x7d\n\\textbf\x7bB.S./M.S. (4+1) in Computer Science\x7d \\hfill Expected Dec 2026 \\\\\nArizona State University, Tempe, AZ \\hfill GPA: 3.98 \\\\\n\\vspace\x7b-18pt\x7d\n\\begin\x7bitemize\x7d[left=5pt,itemsep=-4pt]\n\\item \\textbf\x7bRelevant Coursework:\x7d Machine Learning, AI, Cloud Computing, Data Structures \\& Algorithms, Distributed Systems, Operating Systems, Web Development, Data Mining\n\\end\x7bitemize\x7d\n\n"

def mChunk3 : String :=
  "\\vspace\x7b-10pt\x7d\n\\section*\x7b\\color\x7bmygreen\x7d\x7bSKILLS\x7d\x7d\n\\hrule\n\\begin\x7bitemize\x7d[left=5pt,itemsep=-4pt]\n\\vspace\x7b-1pt\x7d\n\\item \\textbf\x7bLanguages:\x7d Python, C, C\\texttt\x7b++\x7d, Java, JavaScript, TypeScript, SQL\n\\item \\textbf\x7bAI/ML:\x7d PyTorch, TensorFlow, Scikit-Learn, model evaluation, data preprocessing\n\\item \\textbf\x7bBackend:\x7d Node.js, REST APIs, Flask, Django, Firebase\n"

def mChunk4 : String :=
  "\\item \\textbf\x7bFrontend:\x7d React.js, Next.js, React Native, HTML/CSS\n\\item \\textbf\x7bCloud/DevOps:\x7d AWS, Kubernetes, Linux, Docker, Git, GitLab CI/CD\n\\end\x7bitemize\x7d\n\n\\vspace\x7b-10pt\x7d\n\\section*\x7b\\color\x7bmygreen\x7d\x7bEXPERIENCE\x7d\x7d\n\\hrule\n\\vspace\x7b-1pt\x7d\n\\textbf\x7bTheBeautyRunners\x7d, Tempe, AZ \\hfill Jan 2025 -- Dec 2025 \\\\\n\\textit\x7bSoftware Engineer\x7d\n\\vspace\x7b-4pt\x7d\n\\begin\x7bitemize\x7d[left=5pt,itemsep=-4pt]\n"

def mChunk5 : String :=
  "\\item Built and maintained a scalable \\textbf\x7bReact Native\x7d application with validated APIs, authentication, and async workflows for production use.\n\\item Implemented \\textbf\x7bserverless backend operations\x7d using \\textbf\x7bFirebase\x7d for authentication, data storage, and cloud functions; integrated \\textbf\x7bStripe\x7d for secure payment processing.\n"

def mChunk6 : String :=
  "\\item Deployed the mobile application to \\textbf\x7bApple TestFlight\x7d for beta testing, managing builds, versioning, and user feedbacks.\n\\end\x7bitemize\x7d\n\n\\textbf\x7bArizona State University\x7d, Tempe, AZ \\hfill Nov 2022 -- Dec 2025 \\\\\n\\textit\x7bIT Support \\& Content Manager\x7d\n\\begin\x7bitemize\x7d[left=5pt,itemsep=-4pt]\n\\vspace\x7b-4pt\x7d\n"

def mChunk7 : String :=
  "\\item Managed and maintained operational data in \\textbf\x7bSalesforce\x7d, supporting data accuracy, reporting, and business workflows.\n\\item Built automation and data-processing tools in \\textbf\x7bPython\x7d to analyze records, track trends, and reduce manual effort.\n\\item Authored technical documentation and process guides used by cross-functional teams across the university.\n\\end\x7bitemize\x7d\n\n"

def mChunk8 : String :=
  "\\textbf\x7bThree Martian IT Solutions\x7d, Surat, India \\hfill May 2022 -- Jul 2022 \\\\\n\\textit\x7bPython Developer\x7d\n\\begin\x7bitemize\x7d[left=5pt,itemsep=-4pt]\n\\vspace\x7b-4pt\x7d\n\\item Enhanced \\textbf\x7bDjango\x7d modules, improving system maintainability and API performance through optimized SQL and caching.\n\\item Implemented automated unit tests, improved backend reliability, and deployed containerized builds via Docker.\n"

def mChunk9 : String :=
  "\\item Documented API behavior, module dependencies, and code changes for long-term maintainability.\n\\end\x7bitemize\x7d\n\n\\vspace\x7b-10pt\x7d\n\\section*\x7b\\color\x7bmygreen\x7d\x7bPROJECTS\x7d\x7d\n\\hrule\n\\vspace\x7b-1pt\x7d\n\\textbf\x7bPreview Environment Manager\x7d\n\\vspace\x7b-4pt\x7d\n\\begin\x7bitemize\x7d[left=5pt,itemsep=-4pt]\n"

def mChunk10 : String :=
  "\\item Engineered an automated \\textbf\x7bKubernetes\x7d preview system using \\textbf\x7bNode.js, Express, and GitHub webhooks\x7d that dynamically provisions isolated namespaces per pull request, accelerating code review by \\textbf\x7benabling instant deployment validation\x7d.\n"

def mChunk11 : String :=
  "\\item Orchestrated \\textbf\x7bCI/CD automation with Docker, kubectl, and kind\x7d, implementing secure webhook verification, resource-constrained deployments with health probes, and lifecycle management achieving \\textbf\x7bzero-touch infrastructure operations\x7d.\n\\end\x7bitemize\x7d\n\n\n\\textbf\x7bServerless \\& Edge-Based Face Recognition Pipeline\x7d\n\\vspace\x7b-4pt\x7d\n\\begin\x7bitemize\x7d[left=5pt,itemsep=-4pt]\n"

def mChunk12 : String :=
  "\\item Architected a distributed \\textbf\x7bcloud + edge AI system\x7d using \\textbf\x7bAWS Lambda, SQS, ECR, and IoT Greengrass\x7d with \\textbf\x7bMTCNN + FaceNet models\x7d for real-time facial recognition, achieving \\textbf\x7b100\\% accuracy\x7d under production workloads.\n"

def mChunk13 : String :=
  "\\item Optimized inference by offloading detection to \\textbf\x7bedge devices via MQTT\x7d, containerizing PyTorch with CPU-optimized Docker builds, and implementing async message queuing that reduced latency by \\textbf\x7b40\\%\x7d across distributed environments.\n\\end\x7bitemize\x7d\n\n\n\\textbf\x7bGetCoverly.ai\x7d\n\\vspace\x7b-4pt\x7d\n\\begin\x7bitemize\x7d[left=5pt,itemsep=-4pt]\n"

def mChunk14 : String :=
  "\\item Developing an AI-powered resume and cover-letter generator using \\textbf\x7bReact, Node.js, and Firebase\x7d integrated with OpenAI, allowing users to craft tailored documents \\textbf\x7b3\u00d7 faster\x7d.\n\\item Applied \\textbf\x7bmachine learning for job-skill mapping\x7d to raise personalization accuracy and automate NLP-driven generation.\n\\end\x7bitemize\x7d\n\n\\textbf\x7bGPU-Accelerated Binary Classifier\x7d\n\\vspace\x7b-4pt\x7d\n"

def mChunk15 : String :=
  "\\begin\x7bitemize\x7d[left=5pt,itemsep=-4pt]\n\\item Designed a GPU-optimized binary classifier in Python using \\textbf\x7bNumPy/cuML\x7d, enabling \\textbf\x7b3\u00d7 faster\x7d training on large datasets.\n\\item Evaluated model performance, tuned parameters, and analyzed class-imbalance effects to improve accuracy and reliability.\n\\end\x7bitemize\x7d\n\n\\textbf\x7bAI-Enabled Mevent Console\x7d\n\\vspace\x7b-4pt\x7d\n\\begin\x7bitemize\x7d[left=5pt,itemsep=-4pt]\n"

def mChunk16 : String :=
  "\\item Built real-time dashboards with \\textbf\x7bNext.js\x7d and WebSockets for event monitoring and pattern detection.\n\\item Implemented accessibility, automated tests, and structured documentation to support long-term extensibility.\n\\end\x7bitemize\x7d\n\n\\textbf\x7bCustom C\\texttt\x7b++\x7d Compiler and Interpreter\x7d\n\\vspace\x7b-4pt\x7d\n\\begin\x7bitemize\x7d[left=5pt,itemsep=-4pt]\n"

def mChunk17 : String :=
  "\\item Implemented compiler components (lexer, parser, IR interpreter) using core algorithmic techniques and memory-safe C\\texttt\x7b++\x7d.\n\\item Added structured error reporting, test harnesses, and Linux scripts to ensure deterministic behavior and robust debugging.\n\\end\x7bitemize\x7d\n\n\\textbf\x7bConvertEase Discord Bot\x7d\n\\begin\x7bitemize\x7d[left=5pt,itemsep=-4pt]\n\\vspace\x7b-4pt\x7d\n"

def mChunk18 : String :=
  "\\item Automated file processing and conversions using \\textbf\x7bPython\x7d, including error-tolerant command parsing.\n\\item Reduced conversion times by 50\\% through optimized algorithms and caching techniques.\n\\end\x7bitemize\x7d\n\n\\end\x7bdocument\x7d"

/-- `MASTER_LATEX` (after its `.strip()`), split at line boundaries into
short chunks so that every character-list expression stays shallow. -/
def MASTER_LATEX : String :=
  mChunk0 ++ (mChunk1 ++ (mChunk2 ++ (mChunk3 ++ (mChunk4 ++ (mChunk5 ++ (mChunk6 ++ (mChunk7 ++ (mChunk8 ++ (mChunk9 ++ (mChunk10 ++ (mChunk11 ++ (mChunk12 ++ (mChunk13 ++ (mChunk14 ++ (mChunk15 ++ (mChunk16 ++ (mChunk17 ++ (mChunk18))))))))))))))))))

def masterBoldList : List String :=
  ["OM KIRANBHAI PATEL", "B.S./M.S. (4+1) in Computer Science", "Relevant Coursework:", "Languages:", "AI/ML:", "Backend:", "Frontend:", "Cloud/DevOps:", "TheBeautyRunners", "React Native", "serverless backend operations", "Firebase", "Stripe", "Apple TestFlight", "Arizona State University", "Salesforce", "Python", "Three Martian IT Solutions", "Django", "Preview Environment Manager", "Kubernetes", "Node.js, Express, and GitHub webhooks", "enabling instant deployment validation", "CI/CD automation with Docker, kubectl, and kind", "zero-touch infrastructure operations", "Serverless \\& Edge-Based Face Recognition Pipeline", "cloud + edge AI system", "AWS Lambda, SQS, ECR, and IoT Greengrass", "MTCNN + FaceNet models", "100\\% accuracy", "edge devices via MQTT", "40\\%", "GetCoverly.ai", "React, Node.js, and Firebase", "3\u00d7 faster", "machine learning for job-skill mapping", "GPU-Accelerated Binary Classifier", "NumPy/cuML", "3\u00d7 faster", "AI-Enabled Mevent Console", "Next.js", "Custom C\\texttt\x7b++", "ConvertEase Discord Bot", "Python"]

/-- The master's preamble up to and including `\begin{document}`. -/
def masterPreamble : String :=
  match findL bdTok MASTER_LATEX.toList with
  | some i => (MASTER_LATEX.toList.take (i + bdTok.length)).asString
  | none => ""

/-! ### Per-record control flow of `main`

The generation collaborator is modelled by the `tailored_latex` strings it
returns: `c1` for the first call, `c2` for the corrective call (the source
appends a corrective instruction to the prompt; only the returned text
matters here).  `main`'s `except` block converts any raised `RuntimeError`
into an error status on the record, so raises are modelled as `Except.error`
outcomes.  The returned `Nat` counts invocations of `generate_apply_pack`. -/

/-- First attempt up to the merged document: the `if not tailored_raw` guard,
`sanitize_latex`, then `merge_with_master_preamble`. -/
def prepFirst (master c1 : String) : Except PipeErr String :=
  if c1 = "" then Except.error PipeErr.emptyLatexField
  else
    match sanitize_latex c1 with
    | Except.error e => Except.error e
    | Except.ok t => merge_with_master_preamble master t

/-- The retry branch of `main` (inside `except RuntimeError`): regeneration,
`sanitize_latex`, `looks_like_latex_resume`, `require_same_section_markers`,
`require_bullet_count_stable` — and no `merge_with_master_preamble`. -/
def retryPath (master c2 : String) : Except PipeErr String :=
  if c2 = "" then Except.error PipeErr.emptyLatexField
  else
    match sanitize_latex c2 with
    | Except.error e => Except.error e
    | Except.ok t2 =>
      match require_same_section_markers master t2 with
      | Except.error e => Except.error e
      | Except.ok _ =>
        match require_bullet_count_stable master t2 10 10 with
        | Except.error e => Except.error e
        | Except.ok _ =>
          if (looks_like_latex_resume t2).1 then Except.ok t2
          else Except.error (PipeErr.latexInvalid (looks_like_latex_resume t2).2)

/-- One job record's processing in `main`: the result (accepted document or
error written back to the record) and the number of generation calls.
`looks_like_latex_resume`'s verdict is computed before the guards but only
enforced by the `if not ok` test after the bullet stage, which is the order
used here. -/
def processRecord (master c1 c2 : String) : Except PipeErr String × Nat :=
  match prepFirst master c1 with
  | Except.error e => (Except.error e, 1)
  | Except.ok merged =>
    match require_same_section_markers master merged with
    | Except.error e => (Except.error e, 1)
    | Except.ok _ =>
      match require_bullet_count_stable master merged 10 10 with
      | Except.error _ => (retryPath master c2, 2)
      | Except.ok _ =>
        if (looks_like_latex_resume merged).1 then (Except.ok merged, 1)
        else (Except.error (PipeErr.latexInvalid (looks_like_latex_resume merged).2), 1)

/-- The `for page in items` loop of `main`: every record is processed; a
failure becomes that record's outcome and the loop continues. -/
def runPipeline (master : String) (records : List (String × String)) :
    List (Except PipeErr String × Nat) :=
  records.map (fun r => processRecord master r.1 r.2)

/-! ### `fetch_by_status` (notion_client.py)

The property index maps a normalized property name to the actual name and
the property type string (the only schema field the function reads). -/

inductive NotionErr where
  | noStatusProp : NotionErr
  | badStatusType : String → NotionErr
deriving DecidableEq

/-- The query payload `fetch_by_status` posts to the record store. -/
structure QueryPayload where
  filterProperty : String
  filterKind : String
  filterEquals : String
  pageSize : Int
  sortTimestamp : String
  sortDirection : String
deriving DecidableEq

/-- `re.sub(r"\s+", " ", s)`: collapse whitespace runs to single spaces. -/
def collapseWsGo (prevSp : Bool) : List Char → List Char
  | [] => []
  | c :: rest =>
    if pyIsSpace c then
      if prevSp then collapseWsGo true rest else ' ' :: collapseWsGo true rest
    else c :: collapseWsGo false rest

/-- `normalize_name`: strip, lower-case, collapse whitespace (`str.lower`
restricted to ASCII here; the names involved are ASCII). -/
def normalize_name (s : String) : String :=
  (collapseWsGo false (pyStrip (s.toList.map Char.toLower))).asString

/-- `resolve_prop`: dictionary lookup by normalized name. -/
def resolve_prop (idx : List (String × String × String)) (name : String) :
    Option (String × String) :=
  (idx.find? (fun e => e.1 = normalize_name name)).map (fun e => e.2)

/-- `fetch_by_status`: resolve the `Status` property, build the filter for a
`status` or `select` property, request `page_size = min(max(limit, 1), 20)`
and ascending `created_time` order. -/
def fetch_by_status (status_name : String) (limit : Int)
    (idx : List (String × String × String)) : Except NotionErr QueryPayload :=
  match resolve_prop idx "Status" with
  | none => Except.error NotionErr.noStatusProp
  | some (actual_name, ptype) =>
    if ptype = "status" ∨ ptype = "select" then
      Except.ok
        { filterProperty := actual_name
          filterKind := ptype
          filterEquals := status_name
          pageSize := min (max limit 1) 20
          sortTimestamp := "created_time"
          sortDirection := "ascending" }
    else Except.error (NotionErr.badStatusType ptype)

def C7wMaster : String :=
  "\\section*\x7b\\color\x7bmygreen\x7d\x7bSKILLS\x7d\x7d\\section*\x7b\\color\x7bmygreen\x7d\x7bEXPERIENCE\x7d\x7d\\section*\x7b\\color\x7bmygreen\x7d\x7bPROJECTS\x7d\x7d\\begin\x7bdocument\x7d"

def C7wCand : String :=
  "\\documentclass\n\\begin\x7bdocument\x7d\n\\section*\x7b\\color\x7bmygreen\x7d\x7bSKILLS\x7d\x7d\\section*\x7b\\color\x7bmygreen\x7d\x7bEXPERIENCE\x7d\x7d\\section*\x7b\\color\x7bmygreen\x7d\x7bPROJECTS\x7d\x7d\n\\end\x7bdocument\x7d"

def C7wMerged : String :=
  "\\section*\x7b\\color\x7bmygreen\x7d\x7bSKILLS\x7d\x7d\\section*\x7b\\color\x7bmygreen\x7d\x7bEXPERIENCE\x7d\x7d\\section*\x7b\\color\x7bmygreen\x7d\x7bPROJECTS\x7d\x7d\\begin\x7bdocument\x7d\n\\section*\x7b\\color\x7bmygreen\x7d\x7bSKILLS\x7d\x7d\\section*\x7b\\color\x7bmygreen\x7d\x7bEXPERIENCE\x7d\x7d\\section*\x7b\\color\x7bmygreen\x7d\x7bPROJECTS\x7d\x7d\n\\end\x7bdocument\x7d"

/-- Every occurrence of `ch` is preceded by a backslash; `prev` is the
character before the head of the list (`none` at the start). -/
def shB (ch : Char) : Option Char → List Char → Bool
  | _, [] => true
  | prev, c :: rest => (c != ch || prev == some '\\') && shB ch (some c) rest

/-- The character context after scanning `l` starting from context `q`. -/
def ctxAfter (q : Option Char) : List Char → Option Char
  | [] => q
  | c :: rest => ctxAfter (some c) rest

/-- The typographic code points normalized by `normalize_unicode`. -/
def typographicChars : List Char :=
  ['\u2013', '\u2014', '\u2018', '\u2019', '\u201c', '\u201d', '\u2022', '\xd7', '\xa0']

def candFabricated : String :=
  "\\documentclass\x7bx\x7d\n\\begin\x7bdocument\x7d\n\\section*\x7b\\color\x7bmygreen\x7d\x7bSKILLS\x7d\x7d\n\\section*\x7b\\color\x7bmygreen\x7d\x7bEXPERIENCE\x7d\x7d\n\\section*\x7b\\color\x7bmygreen\x7d\x7bPROJECTS\x7d\x7d\n\\textbf\x7bFabricated Corp\x7d\n\\item\n\\item\n\\item\n\\item\n\\item\n\\item\n\\item\n\\item\n\\item\n\\item\n\\item\n\\item\n\\item\n\\item\n\\item\n\\item\n\\item\n\\item\n\\item\n\\item\n\\item\n\\item\n\\item\n\\item\n\\item\n\\item\n\\item\n\\item\n\\item\n\\end\x7bdocument\x7d"

def candDrift : String :=
  "\\documentclass\x7bx\x7d\n\\begin\x7bdocument\x7d\n\\section*\x7b\\color\x7bmygreen\x7d\x7bSKILLS\x7d\x7d\n\\section*\x7b\\color\x7bmygreen\x7d\x7bEXPERIENCE\x7d\x7d\n\\section*\x7b\\color\x7bmygreen\x7d\x7bPROJECTS\x7d\x7d\n\\end\x7bdocument\x7d"

def candAlien : String :=
  "\\documentclass[11pt]\x7barticle\x7d\n\\begin\x7bdocument\x7d\n\\section*\x7b\\color\x7bmygreen\x7d\x7bSKILLS\x7d\x7d\n\\section*\x7b\\color\x7bmygreen\x7d\x7bEXPERIENCE\x7d\x7d\n\\section*\x7b\\color\x7bmygreen\x7d\x7bPROJECTS\x7d\x7d\n\\item\n\\item\n\\item\n\\item\n\\item\n\\item\n\\item\n\\item\n\\item\n\\item\n\\item\n\\item\n\\item\n\\item\n\\item\n\\item\n\\item\n\\item\n\\item\n\\item\n\\item\n\\item\n\\item\n\\item\n\\item\n\\item\n\\item\n\\item\n\\item\n\\end\x7bdocument\x7d"

def candUnbal : String :=
  "\\documentclass\x7bx\x7d\n\\begin\x7bdocument\x7d\n\\section*\x7b\\color\x7bmygreen\x7d\x7bSKILLS\x7d\x7d\n\\section*\x7b\\color\x7bmygreen\x7d\x7bEXPERIENCE\x7d\x7d\n\\section*\x7b\\color\x7bmygreen\x7d\x7bPROJECTS\x7d\x7d\n\x7b\n\\end\x7bdocument\x7d"

def candNoMk : String :=
  "\\documentclass\x7bx\x7d\n\\begin\x7bdocument\x7d\nhello \x7b\n\\end\x7bdocument\x7d"

def c9master : String :=
  "\\documentclass\x7ba\x7d\n\\begin\x7bdocument\x7d\nhello\n\\end\x7bdocument\x7d"

def c9cand : String :=
  "\\documentclass\x7bb\x7d\n\\begin\x7bdocument\x7d\nworld\n\\end\x7bdocument\x7d"

def mergedFabricated : String :=
  "\\documentclass[10pt]\x7bextarticle\x7d\n\\usepackage[left=0.4in,right=0.4in,top=0.4in,bottom=0.4in]\x7bgeometry\x7d\n\\usepackage[hidelinks]\x7bhyperref\x7d\n\\usepackage\x7benumitem\x7d\n\\usepackage\x7btitlesec\x7d\n\\usepackage\x7bparskip\x7d\n\\usepackage\x7bxcolor\x7d\n\\definecolor\x7bmygreen\x7d\x7bHTML\x7d\x7b169137\x7d\n\\definecolor\x7bmyblue\x7d\x7bHTML\x7d\x7b1848cc\x7d\n\n\\pagenumbering\x7bgobble\x7d\n\\titleformat\x7b\\section\x7d\x7b\\large\\bfseries\x7d\x7b\x7d\x7b0em\x7d\x7b\x7d\n\\titleformat\x7b\\subsection\x7d\x7b\\bfseries\x7d\x7b\x7d\x7b0em\x7d\x7b\x7d\n\\setlength\x7b\\parindent\x7d\x7b0pt\x7d\n\n\\title\x7b\\color\x7bmyblue\x7d\x7b\\vspace\x7b-1.5cm\x7d \\LARGE \\textbf\x7bOM KIRANBHAI PATEL\x7d\x7d\x7d\n\\date\x7b\x7d\n\n\\begin\x7bdocument\x7d\n\\section*\x7b\\color\x7bmygreen\x7d\x7bSKILLS\x7d\x7d\n\\section*\x7b\\color\x7bmygreen\x7d\x7bEXPERIENCE\x7d\x7d\n\\section*\x7b\\color\x7bmygreen\x7d\x7bPROJECTS\x7d\x7d\n\\textbf\x7bFabricated Corp\x7d\n\\item\n\\item\n\\item\n\\item\n\\item\n\\item\n\\item\n\\item\n\\item\n\\item\n\\item\n\\item\n\\item\n\\item\n\\item\n\\item\n\\item\n\\item\n\\item\n\\item\n\\item\n\\item\n\\item\n\\item\n\\item\n\\item\n\\item\n\\item\n\\item\n\\end\x7bdocument\x7d"

def mergedDrift : String :=
  "\\documentclass[10pt]\x7bextarticle\x7d\n\\usepackage[left=0.4in,right=0.4in,top=0.4in,bottom=0.4in]\x7bgeometry\x7d\n\\usepackage[hidelinks]\x7bhyperref\x7d\n\\usepackage\x7benumitem\x7d\n\\usepackage\x7btitlesec\x7d\n\\usepackage\x7bparskip\x7d\n\\usepackage\x7bxcolor\x7d\n\\definecolor\x7bmygreen\x7d\x7bHTML\x7d\x7b169137\x7d\n\\definecolor\x7bmyblue\x7d\x7bHTML\x7d\x7b1848cc\x7d\n\n\\pagenumbering\x7bgobble\x7d\n\\titleformat\x7b\\section\x7d\x7b\\large\\bfseries\x7d\x7b\x7d\x7b0em\x7d\x7b\x7d\n\\titleformat\x7b\\subsection\x7d\x7b\\bfseries\x7d\x7b\x7d\x7b0em\x7d\x7b\x7d\n\\setlength\x7b\\parindent\x7d\x7b0pt\x7d\n\n\\title\x7b\\color\x7bmyblue\x7d\x7b\\vspace\x7b-1.5cm\x7d \\LARGE \\textbf\x7bOM KIRANBHAI PATEL\x7d\x7d\x7d\n\\date\x7b\x7d\n\n\\begin\x7bdocument\x7d\n\\section*\x7b\\color\x7bmygreen\x7d\x7bSKILLS\x7d\x7d\n\\section*\x7b\\color\x7bmygreen\x7d\x7bEXPERIENCE\x7d\x7d\n\\section*\x7b\\color\x7bmygreen\x7d\x7bPROJECTS\x7d\x7d\n\\end\x7bdocument\x7d"

def mergedUnbal : String :=
  "\\documentclass[10pt]\x7bextarticle\x7d\n\\usepackage[left=0.4in,right=0.4in,top=0.4in,bottom=0.4in]\x7bgeometry\x7d\n\\usepackage[hidelinks]\x7bhyperref\x7d\n\\usepackage\x7benumitem\x7d\n\\usepackage\x7btitlesec\x7d\n\\usepackage\x7bparskip\x7d\n\\usepackage\x7bxcolor\x7d\n\\definecolor\x7bmygreen\x7d\x7bHTML\x7d\x7b169137\x7d\n\\definecolor\x7bmyblue\x7d\x7bHTML\x7d\x7b1848cc\x7d\n\n\\pagenumbering\x7bgobble\x7d\n\\titleformat\x7b\\section\x7d\x7b\\large\\bfseries\x7d\x7b\x7d\x7b0em\x7d\x7b\x7d\n\\titleformat\x7b\\subsection\x7d\x7b\\bfseries\x7d\x7b\x7d\x7b0em\x7d\x7b\x7d\n\\setlength\x7b\\parindent\x7d\x7b0pt\x7d\n\n\\title\x7b\\color\x7bmyblue\x7d\x7b\\vspace\x7b-1.5cm\x7d \\LARGE \\textbf\x7bOM KIRANBHAI PATEL\x7d\x7d\x7d\n\\date\x7b\x7d\n\n\\begin\x7bdocument\x7d\n\\section*\x7b\\color\x7bmygreen\x7d\x7bSKILLS\x7d\x7d\n\\section*\x7b\\color\x7bmygreen\x7d\x7bEXPERIENCE\x7d\x7d\n\\section*\x7b\\color\x7bmygreen\x7d\x7bPROJECTS\x7d\x7d\n\x7b\n\\end\x7bdocument\x7d"

def mergedNoMk : String :=
  "\\documentclass[10pt]\x7bextarticle\x7d\n\\usepackage[left=0.4in,right=0.4in,top=0.4in,bottom=0.4in]\x7bgeometry\x7d\n\\usepackage[hidelinks]\x7bhyperref\x7d\n\\usepackage\x7benumitem\x7d\n\\usepackage\x7btitlesec\x7d\n\\usepackage\x7bparskip\x7d\n\\usepackage\x7bxcolor\x7d\n\\definecolor\x7bmygreen\x7d\x7bHTML\x7d\x7b169137\x7d\n\\definecolor\x7bmyblue\x7d\x7bHTML\x7d\x7b1848cc\x7d\n\n\\pagenumbering\x7bgobble\x7d\n\\titleformat\x7b\\section\x7d\x7b\\large\\bfseries\x7d\x7b\x7d\x7b0em\x7d\x7b\x7d\n\\titleformat\x7b\\subsection\x7d\x7b\\bfseries\x7d\x7b\x7d\x7b0em\x7d\x7b\x7d\n\\setlength\x7b\\parindent\x7d\x7b0pt\x7d\n\n\\title\x7b\\color\x7bmyblue\x7d\x7b\\vspace\x7b-1.5cm\x7d \\LARGE \\textbf\x7bOM KIRANBHAI PATEL\x7d\x7d\x7d\n\\date\x7b\x7d\n\n\\begin\x7bdocument\x7d\nhello \x7b\n\\end\x7bdocument\x7d"

/-- The preamble of a document: everything up to and including
`\begin\x7bdocument\x7d`, when the marker is present. -/
def preambleOf (d : String) : Option String :=
  (findL bdTok d.toList).map (fun i => (d.toList.take (i + bdTok.length)).asString)


def merged_c9 : String :=
  "\\documentclass\x7ba\x7d\n\\begin\x7bdocument\x7d\nworld\n\\end\x7bdocument\x7d"

def c3wMaster : String :=
  "\\begin\x7bdocument\x7d\n\\section*\x7b\\color\x7bmygreen\x7d\x7bSKILLS\x7d\x7d\\section*\x7b\\color\x7bmygreen\x7d\x7bEXPERIENCE\x7d\x7d\\section*\x7b\\color\x7bmygreen\x7d\x7bPROJECTS\x7d\x7d\n\\item\n\\item\n\\item\n\\item\n\\item\n\\item\n\\item\n\\item\n\\item\n\\item\n\\item\n"

def c3wMerged : String :=
  "\\begin\x7bdocument\x7d\n\\section*\x7b\\color\x7bmygreen\x7d\x7bSKILLS\x7d\x7d\\section*\x7b\\color\x7bmygreen\x7d\x7bEXPERIENCE\x7d\x7d\\section*\x7b\\color\x7bmygreen\x7d\x7bPROJECTS\x7d\x7d\n\\end\x7bdocument\x7d"

def c9wTailored : String :=
  skillsMarker ++ experienceMarker ++ projectsMarker

/-! ### Master-document facts, proved chunk by chunk -/

theorem findGo_isSome_shift (needle : List Char) (l : List Char) (i j : Nat) :
    (findGo needle l i).isSome = (findGo needle l j).isSome := by
  induction l generalizing i j with
  | nil => rfl
  | cons c rest ih =>
    simp only [findGo]
    by_cases h : needle.isPrefixOf (c :: rest) = true
    · simp [h]
    · simp only [Bool.not_eq_true] at h
      simp [h, ih (i + 1) (j + 1)]

/-- If the needle occurs in `b`, the scan over `a ++ b` also finds it. -/
theorem findGo_append_isSome (needle b : List Char)
    (hb : (findGo needle b 0).isSome = true) :
    ∀ (a : List Char) (i : Nat), (findGo needle (a ++ b) i).isSome = true := by
  intro a
  induction a with
  | nil =>
    intro i
    rw [List.nil_append, findGo_isSome_shift needle b i 0]
    exact hb
  | cons c a' ih =>
    intro i
    rw [List.cons_append]
    simp only [findGo]
    by_cases h : List.isPrefixOf needle (c :: (a' ++ b)) = true
    · simp [h]
    · simp [h, ih (i + 1)]

/-- Containment in a suffix gives containment in the whole list. -/
theorem contains_peel (a b needle : List Char) (h : containsL needle b = true) :
    containsL needle (a ++ b) = true := by
  unfold containsL findL at h ⊢
  by_cases hn : needle = []
  · simp [hn]
  · rw [if_neg hn] at h ⊢
    exact findGo_append_isSome needle b h a 0

theorem master_toList : MASTER_LATEX.toList = mChunk0.toList ++ (mChunk1.toList ++ (mChunk2.toList ++ (mChunk3.toList ++ (mChunk4.toList ++ (mChunk5.toList ++ (mChunk6.toList ++ (mChunk7.toList ++ (mChunk8.toList ++ (mChunk9.toList ++ (mChunk10.toList ++ (mChunk11.toList ++ (mChunk12.toList ++ (mChunk13.toList ++ (mChunk14.toList ++ (mChunk15.toList ++ (mChunk16.toList ++ (mChunk17.toList ++ (mChunk18.toList)))))))))))))))))) := by
  show (mChunk0 ++ (mChunk1 ++ (mChunk2 ++ (mChunk3 ++ (mChunk4 ++ (mChunk5 ++ (mChunk6 ++ (mChunk7 ++ (mChunk8 ++ (mChunk9 ++ (mChunk10 ++ (mChunk11 ++ (mChunk12 ++ (mChunk13 ++ (mChunk14 ++ (mChunk15 ++ (mChunk16 ++ (mChunk17 ++ (mChunk18))))))))))))))))))).data = _
  simp only [String.data_append]
  rfl

theorem countStep0 (R : List Char) :
    countItemsAcc 0 (mChunk0.toList ++ R) = countItemsAcc 0 R := rfl

theorem countStep1 (R : List Char) :
    countItemsAcc 0 (mChunk1.toList ++ R) = countItemsAcc 0 R := rfl

theorem countStep2 (R : List Char) :
    countItemsAcc 0 (mChunk2.toList ++ R) = countItemsAcc 1 R := rfl

theorem countStep3 (R : List Char) :
    countItemsAcc 1 (mChunk3.toList ++ R) = countItemsAcc 4 R := rfl

theorem countStep4 (R : List Char) :
    countItemsAcc 4 (mChunk4.toList ++ R) = countItemsAcc 6 R := rfl

theorem countStep5 (R : List Char) :
    countItemsAcc 6 (mChunk5.toList ++ R) = countItemsAcc 8 R := rfl

theorem countStep6 (R : List Char) :
    countItemsAcc 8 (mChunk6.toList ++ R) = countItemsAcc 9 R := rfl

theorem countStep7 (R : List Char) :
    countItemsAcc 9 (mChunk7.toList ++ R) = countItemsAcc 12 R := rfl

theorem countStep8 (R : List Char) :
    countItemsAcc 12 (mChunk8.toList ++ R) = countItemsAcc 14 R := rfl

theorem countStep9 (R : List Char) :
    countItemsAcc 14 (mChunk9.toList ++ R) = countItemsAcc 15 R := rfl

theorem countStep10 (R : List Char) :
    countItemsAcc 15 (mChunk10.toList ++ R) = countItemsAcc 16 R := rfl

theorem countStep11 (R : List Char) :
    countItemsAcc 16 (mChunk11.toList ++ R) = countItemsAcc 17 R := rfl

theorem countStep12 (R : List Char) :
    countItemsAcc 17 (mChunk12.toList ++ R) = countItemsAcc 18 R := rfl

theorem countStep13 (R : List Char) :
    countItemsAcc 18 (mChunk13.toList ++ R) = countItemsAcc 19 R := rfl

theorem countStep14 (R : List Char) :
    countItemsAcc 19 (mChunk14.toList ++ R) = countItemsAcc 21 R := rfl

theorem countStep15 (R : List Char) :
    countItemsAcc 21 (mChunk15.toList ++ R) = countItemsAcc 23 R := rfl

theorem countStep16 (R : List Char) :
    countItemsAcc 23 (mChunk16.toList ++ R) = countItemsAcc 25 R := rfl

theorem countStep17 (R : List Char) :
    countItemsAcc 25 (mChunk17.toList ++ R) = countItemsAcc 27 R := rfl

theorem countStepLast : countItemsAcc 27 mChunk18.toList = 29 := rfl

theorem textbfStep0 (R : List Char) :
    textbfAcc [] none (mChunk0.toList ++ R) =
    textbfAcc [] none R := rfl

theorem textbfStep1 (R : List Char) :
    textbfAcc [] none (mChunk1.toList ++ R) =
    textbfAcc ["OM KIRANBHAI PATEL"] none R := rfl

theorem textbfStep2 (R : List Char) :
    textbfAcc ["OM KIRANBHAI PATEL"] none (mChunk2.toList ++ R) =
    textbfAcc ["Relevant Coursework:", "B.S./M.S. (4+1) in Computer Science", "OM KIRANBHAI PATEL"] none R := rfl

theorem textbfStep3 (R : List Char) :
    textbfAcc ["Relevant Coursework:", "B.S./M.S. (4+1) in Computer Science", "OM KIRANBHAI PATEL"] none (mChunk3.toList ++ R) =
    textbfAcc ["Backend:", "AI/ML:", "Languages:", "Relevant Coursework:", "B.S./M.S. (4+1) in Computer Science", "OM KIRANBHAI PATEL"] none R := rfl

theorem textbfStep4 (R : List Char) :
    textbfAcc ["Backend:", "AI/ML:", "Languages:", "Relevant Coursework:", "B.S./M.S. (4+1) in Computer Science", "OM KIRANBHAI PATEL"] none (mChunk4.toList ++ R) =
    textbfAcc ["TheBeautyRunners", "Cloud/DevOps:", "Frontend:", "Backend:", "AI/ML:", "Languages:", "Relevant Coursework:", "B.S./M.S. (4+1) in Computer Science", "OM KIRANBHAI PATEL"] none R := rfl

theorem textbfStep5 (R : List Char) :
    textbfAcc ["TheBeautyRunners", "Cloud/DevOps:", "Frontend:", "Backend:", "AI/ML:", "Languages:", "Relevant Coursework:", "B.S./M.S. (4+1) in Computer Science", "OM KIRANBHAI PATEL"] none (mChunk5.toList ++ R) =
    textbfAcc ["Stripe", "Firebase", "serverless backend operations", "React Native", "TheBeautyRunners", "Cloud/DevOps:", "Frontend:", "Backend:", "AI/ML:", "Languages:", "Relevant Coursework:", "B.S./M.S. (4+1) in Computer Science", "OM KIRANBHAI PATEL"] none R := rfl

theorem textbfStep6 (R : List Char) :
    textbfAcc ["Stripe", "Firebase", "serverless backend operations", "React Native", "TheBeautyRunners", "Cloud/DevOps:", "Frontend:", "Backend:", "AI/ML:", "Languages:", "Relevant Coursework:", "B.S./M.S. (4+1) in Computer Science", "OM KIRANBHAI PATEL"] none (mChunk6.toList ++ R) =
    textbfAcc ["Arizona State University", "Apple TestFlight", "Stripe", "Firebase", "serverless backend operations", "React Native", "TheBeautyRunners", "Cloud/DevOps:", "Frontend:", "Backend:", "AI/ML:", "Languages:", "Relevant Coursework:", "B.S./M.S. (4+1) in Computer Science", "OM KIRANBHAI PATEL"] none R := rfl

theorem textbfStep7 (R : List Char) :
    textbfAcc ["Arizona State University", "Apple TestFlight", "Stripe", "Firebase", "serverless backend operations", "React Native", "TheBeautyRunners", "Cloud/DevOps:", "Frontend:", "Backend:", "AI/ML:", "Languages:", "Relevant Coursework:", "B.S./M.S. (4+1) in Computer Science", "OM KIRANBHAI PATEL"] none (mChunk7.toList ++ R) =
    textbfAcc ["Python", "Salesforce", "Arizona State University", "Apple TestFlight", "Stripe", "Firebase", "serverless backend operations", "React Native", "TheBeautyRunners", "Cloud/DevOps:", "Frontend:", "Backend:", "AI/ML:", "Languages:", "Relevant Coursework:", "B.S./M.S. (4+1) in Computer Science", "OM KIRANBHAI PATEL"] none R := rfl

theorem textbfStep8 (R : List Char) :
    textbfAcc ["Python", "Salesforce", "Arizona State University", "Apple TestFlight", "Stripe", "Firebase", "serverless backend operations", "React Native", "TheBeautyRunners", "Cloud/DevOps:", "Frontend:", "Backend:", "AI/ML:", "Languages:", "Relevant Coursework:", "B.S./M.S. (4+1) in Computer Science", "OM KIRANBHAI PATEL"] none (mChunk8.toList ++ R) =
    textbfAcc ["Django", "Three Martian IT Solutions", "Python", "Salesforce", "Arizona State University", "Apple TestFlight", "Stripe", "Firebase", "serverless backend operations", "React Native", "TheBeautyRunners", "Cloud/DevOps:", "Frontend:", "Backend:", "AI/ML:", "Languages:", "Relevant Coursework:", "B.S./M.S. (4+1) in Computer Science", "OM KIRANBHAI PATEL"] none R := rfl

theorem textbfStep9 (R : List Char) :
    textbfAcc ["Django", "Three Martian IT Solutions", "Python", "Salesforce", "Arizona State University", "Apple TestFlight", "Stripe", "Firebase", "serverless backend operations", "React Native", "TheBeautyRunners", "Cloud/DevOps:", "Frontend:", "Backend:", "AI/ML:", "Languages:", "Relevant Coursework:", "B.S./M.S. (4+1) in Computer Science", "OM KIRANBHAI PATEL"] none (mChunk9.toList ++ R) =
    textbfAcc ["Preview Environment Manager", "Django", "Three Martian IT Solutions", "Python", "Salesforce", "Arizona State University", "Apple TestFlight", "Stripe", "Firebase", "serverless backend operations", "React Native", "TheBeautyRunners", "Cloud/DevOps:", "Frontend:", "Backend:", "AI/ML:", "Languages:", "Relevant Coursework:", "B.S./M.S. (4+1) in Computer Science", "OM KIRANBHAI PATEL"] none R := rfl

theorem textbfStep10 (R : List Char) :
    textbfAcc ["Preview Environment Manager", "Django", "Three Martian IT Solutions", "Python", "Salesforce", "Arizona State University", "Apple TestFlight", "Stripe", "Firebase", "serverless backend operations", "React Native", "TheBeautyRunners", "Cloud/DevOps:", "Frontend:", "Backend:", "AI/ML:", "Languages:", "Relevant Coursework:", "B.S./M.S. (4+1) in Computer Science", "OM KIRANBHAI PATEL"] none (mChunk10.toList ++ R) =
    textbfAcc ["enabling instant deployment validation", "Node.js, Express, and GitHub webhooks", "Kubernetes", "Preview Environment Manager", "Django", "Three Martian IT Solutions", "Python", "Salesforce", "Arizona State University", "Apple TestFlight", "Stripe", "Firebase", "serverless backend operations", "React Native", "TheBeautyRunners", "Cloud/DevOps:", "Frontend:", "Backend:", "AI/ML:", "Languages:", "Relevant Coursework:", "B.S./M.S. (4+1) in Computer Science", "OM KIRANBHAI PATEL"] none R := rfl

theorem textbfStep11 (R : List Char) :
    textbfAcc ["enabling instant deployment validation", "Node.js, Express, and GitHub webhooks", "Kubernetes", "Preview Environment Manager", "Django", "Three Martian IT Solutions", "Python", "Salesforce", "Arizona State University", "Apple TestFlight", "Stripe", "Firebase", "serverless backend operations", "React Native", "TheBeautyRunners", "Cloud/DevOps:", "Frontend:", "Backend:", "AI/ML:", "Languages:", "Relevant Coursework:", "B.S./M.S. (4+1) in Computer Science", "OM KIRANBHAI PATEL"] none (mChunk11.toList ++ R) =
    textbfAcc ["Serverless \\& Edge-Based Face Recognition Pipeline", "zero-touch infrastructure operations", "CI/CD automation with Docker, kubectl, and kind", "enabling instant deployment validation", "Node.js, Express, and GitHub webhooks", "Kubernetes", "Preview Environment Manager", "Django", "Three Martian IT Solutions", "Python", "Salesforce", "Arizona State University", "Apple TestFlight", "Stripe", "Firebase", "serverless backend operations", "React Native", "TheBeautyRunners", "Cloud/DevOps:", "Frontend:", "Backend:", "AI/ML:", "Languages:", "Relevant Coursework:", "B.S./M.S. (4+1) in Computer Science", "OM KIRANBHAI PATEL"] none R := rfl

theorem textbfStep12 (R : List Char) :
    textbfAcc ["Serverless \\& Edge-Based Face Recognition Pipeline", "zero-touch infrastructure operations", "CI/CD automation with Docker, kubectl, and kind", "enabling instant deployment validation", "Node.js, Express, and GitHub webhooks", "Kubernetes", "Preview Environment Manager", "Django", "Three Martian IT Solutions", "Python", "Salesforce", "Arizona State University", "Apple TestFlight", "Stripe", "Firebase", "serverless backend operations", "React Native", "TheBeautyRunners", "Cloud/DevOps:", "Frontend:", "Backend:", "AI/ML:", "Languages:", "Relevant Coursework:", "B.S./M.S. (4+1) in Computer Science", "OM KIRANBHAI PATEL"] none (mChunk12.toList ++ R) =
    textbfAcc ["100\\% accuracy", "MTCNN + FaceNet models", "AWS Lambda, SQS, ECR, and IoT Greengrass", "cloud + edge AI system", "Serverless \\& Edge-Based Face Recognition Pipeline", "zero-touch infrastructure operations", "CI/CD automation with Docker, kubectl, and kind", "enabling instant deployment validation", "Node.js, Express, and GitHub webhooks", "Kubernetes", "Preview Environment Manager", "Django", "Three Martian IT Solutions", "Python", "Salesforce", "Arizona State University", "Apple TestFlight", "Stripe", "Firebase", "serverless backend operations", "React Native", "TheBeautyRunners", "Cloud/DevOps:", "Frontend:", "Backend:", "AI/ML:", "Languages:", "Relevant Coursework:", "B.S./M.S. (4+1) in Computer Science", "OM KIRANBHAI PATEL"] none R := rfl

theorem textbfStep13 (R : List Char) :
    textbfAcc ["100\\% accuracy", "MTCNN + FaceNet models", "AWS Lambda, SQS, ECR, and IoT Greengrass", "cloud + edge AI system", "Serverless \\& Edge-Based Face Recognition Pipeline", "zero-touch infrastructure operations", "CI/CD automation with Docker, kubectl, and kind", "enabling instant deployment validation", "Node.js, Express, and GitHub webhooks", "Kubernetes", "Preview Environment Manager", "Django", "Three Martian IT Solutions", "Python", "Salesforce", "Arizona State University", "Apple TestFlight", "Stripe", "Firebase", "serverless backend operations", "React Native", "TheBeautyRunners", "Cloud/DevOps:", "Frontend:", "Backend:", "AI/ML:", "Languages:", "Relevant Coursework:", "B.S./M.S. (4+1) in Computer Science", "OM KIRANBHAI PATEL"] none (mChunk13.toList ++ R) =
    textbfAcc ["GetCoverly.ai", "40\\%", "edge devices via MQTT", "100\\% accuracy", "MTCNN + FaceNet models", "AWS Lambda, SQS, ECR, and IoT Greengrass", "cloud + edge AI system", "Serverless \\& Edge-Based Face Recognition Pipeline", "zero-touch infrastructure operations", "CI/CD automation with Docker, kubectl, and kind", "enabling instant deployment validation", "Node.js, Express, and GitHub webhooks", "Kubernetes", "Preview Environment Manager", "Django", "Three Martian IT Solutions", "Python", "Salesforce", "Arizona State University", "Apple TestFlight", "Stripe", "Firebase", "serverless backend operations", "React Native", "TheBeautyRunners", "Cloud/DevOps:", "Frontend:", "Backend:", "AI/ML:", "Languages:", "Relevant Coursework:", "B.S./M.S. (4+1) in Computer Science", "OM KIRANBHAI PATEL"] none R := rfl

theorem textbfStep14 (R : List Char) :
    textbfAcc ["GetCoverly.ai", "40\\%", "edge devices via MQTT", "100\\% accuracy", "MTCNN + FaceNet models", "AWS Lambda, SQS, ECR, and IoT Greengrass", "cloud + edge AI system", "Serverless \\& Edge-Based Face Recognition Pipeline", "zero-touch infrastructure operations", "CI/CD automation with Docker, kubectl, and kind", "enabling instant deployment validation", "Node.js, Express, and GitHub webhooks", "Kubernetes", "Preview Environment Manager", "Django", "Three Martian IT Solutions", "Python", "Salesforce", "Arizona State University", "Apple TestFlight", "Stripe", "Firebase", "serverless backend operations", "React Native", "TheBeautyRunners", "Cloud/DevOps:", "Frontend:", "Backend:", "AI/ML:", "Languages:", "Relevant Coursework:", "B.S./M.S. (4+1) in Computer Science", "OM KIRANBHAI PATEL"] none (mChunk14.toList ++ R) =
    textbfAcc ["GPU-Accelerated Binary Classifier", "machine learning for job-skill mapping", "3\u00d7 faster", "React, Node.js, and Firebase", "GetCoverly.ai", "40\\%", "edge devices via MQTT", "100\\% accuracy", "MTCNN + FaceNet models", "AWS Lambda, SQS, ECR, and IoT Greengrass", "cloud + edge AI system", "Serverless \\& Edge-Based Face Recognition Pipeline", "zero-touch infrastructure operations", "CI/CD automation with Docker, kubectl, and kind", "enabling instant deployment validation", "Node.js, Express, and GitHub webhooks", "Kubernetes", "Preview Environment Manager", "Django", "Three Martian IT Solutions", "Python", "Salesforce", "Arizona State University", "Apple TestFlight", "Stripe", "Firebase", "serverless backend operations", "React Native", "TheBeautyRunners", "Cloud/DevOps:", "Frontend:", "Backend:", "AI/ML:", "Languages:", "Relevant Coursework:", "B.S./M.S. (4+1) in Computer Science", "OM KIRANBHAI PATEL"] none R := rfl

theorem textbfStep15 (R : List Char) :
    textbfAcc ["GPU-Accelerated Binary Classifier", "machine learning for job-skill mapping", "3\u00d7 faster", "React, Node.js, and Firebase", "GetCoverly.ai", "40\\%", "edge devices via MQTT", "100\\% accuracy", "MTCNN + FaceNet models", "AWS Lambda, SQS, ECR, and IoT Greengrass", "cloud + edge AI system", "Serverless \\& Edge-Based Face Recognition Pipeline", "zero-touch infrastructure operations", "CI/CD automation with Docker, kubectl, and kind", "enabling instant deployment validation", "Node.js, Express, and GitHub webhooks", "Kubernetes", "Preview Environment Manager", "Django", "Three Martian IT Solutions", "Python", "Salesforce", "Arizona State University", "Apple TestFlight", "Stripe", "Firebase", "serverless backend operations", "React Native", "TheBeautyRunners", "Cloud/DevOps:", "Frontend:", "Backend:", "AI/ML:", "Languages:", "Relevant Coursework:", "B.S./M.S. (4+1) in Computer Science", "OM KIRANBHAI PATEL"] none (mChunk15.toList ++ R) =
    textbfAcc ["AI-Enabled Mevent Console", "3\u00d7 faster", "NumPy/cuML", "GPU-Accelerated Binary Classifier", "machine learning for job-skill mapping", "3\u00d7 faster", "React, Node.js, and Firebase", "GetCoverly.ai", "40\\%", "edge devices via MQTT", "100\\% accuracy", "MTCNN + FaceNet models", "AWS Lambda, SQS, ECR, and IoT Greengrass", "cloud + edge AI system", "Serverless \\& Edge-Based Face Recognition Pipeline", "zero-touch infrastructure operations", "CI/CD automation with Docker, kubectl, and kind", "enabling instant deployment validation", "Node.js, Express, and GitHub webhooks", "Kubernetes", "Preview Environment Manager", "Django", "Three Martian IT Solutions", "Python", "Salesforce", "Arizona State University", "Apple TestFlight", "Stripe", "Firebase", "serverless backend operations", "React Native", "TheBeautyRunners", "Cloud/DevOps:", "Frontend:", "Backend:", "AI/ML:", "Languages:", "Relevant Coursework:", "B.S./M.S. (4+1) in Computer Science", "OM KIRANBHAI PATEL"] none R := rfl

theorem textbfStep16 (R : List Char) :
    textbfAcc ["AI-Enabled Mevent Console", "3\u00d7 faster", "NumPy/cuML", "GPU-Accelerated Binary Classifier", "machine learning for job-skill mapping", "3\u00d7 faster", "React, Node.js, and Firebase", "GetCoverly.ai", "40\\%", "edge devices via MQTT", "100\\% accuracy", "MTCNN + FaceNet models", "AWS Lambda, SQS, ECR, and IoT Greengrass", "cloud + edge AI system", "Serverless \\& Edge-Based Face Recognition Pipeline", "zero-touch infrastructure operations", "CI/CD automation with Docker, kubectl, and kind", "enabling instant deployment validation", "Node.js, Express, and GitHub webhooks", "Kubernetes", "Preview Environment Manager", "Django", "Three Martian IT Solutions", "Python", "Salesforce", "Arizona State University", "Apple TestFlight", "Stripe", "Firebase", "serverless backend operations", "React Native", "TheBeautyRunners", "Cloud/DevOps:", "Frontend:", "Backend:", "AI/ML:", "Languages:", "Relevant Coursework:", "B.S./M.S. (4+1) in Computer Science", "OM KIRANBHAI PATEL"] none (mChunk16.toList ++ R) =
    textbfAcc ["Custom C\\texttt\x7b++", "Next.js", "AI-Enabled Mevent Console", "3\u00d7 faster", "NumPy/cuML", "GPU-Accelerated Binary Classifier", "machine learning for job-skill mapping", "3\u00d7 faster", "React, Node.js, and Firebase", "GetCoverly.ai", "40\\%", "edge devices via MQTT", "100\\% accuracy", "MTCNN + FaceNet models", "AWS Lambda, SQS, ECR, and IoT Greengrass", "cloud + edge AI system", "Serverless \\& Edge-Based Face Recognition Pipeline", "zero-touch infrastructure operations", "CI/CD automation with Docker, kubectl, and kind", "enabling instant deployment validation", "Node.js, Express, and GitHub webhooks", "Kubernetes", "Preview Environment Manager", "Django", "Three Martian IT Solutions", "Python", "Salesforce", "Arizona State University", "Apple TestFlight", "Stripe", "Firebase", "serverless backend operations", "React Native", "TheBeautyRunners", "Cloud/DevOps:", "Frontend:", "Backend:", "AI/ML:", "Languages:", "Relevant Coursework:", "B.S./M.S. (4+1) in Computer Science", "OM KIRANBHAI PATEL"] none R := rfl

theorem textbfStep17 (R : List Char) :
    textbfAcc ["Custom C\\texttt\x7b++", "Next.js", "AI-Enabled Mevent Console", "3\u00d7 faster", "NumPy/cuML", "GPU-Accelerated Binary Classifier", "machine learning for job-skill mapping", "3\u00d7 faster", "React, Node.js, and Firebase", "GetCoverly.ai", "40\\%", "edge devices via MQTT", "100\\% accuracy", "MTCNN + FaceNet models", "AWS Lambda, SQS, ECR, and IoT Greengrass", "cloud + edge AI system", "Serverless \\& Edge-Based Face Recognition Pipeline", "zero-touch infrastructure operations", "CI/CD automation with Docker, kubectl, and kind", "enabling instant deployment validation", "Node.js, Express, and GitHub webhooks", "Kubernetes", "Preview Environment Manager", "Django", "Three Martian IT Solutions", "Python", "Salesforce", "Arizona State University", "Apple TestFlight", "Stripe", "Firebase", "serverless backend operations", "React Native", "TheBeautyRunners", "Cloud/DevOps:", "Frontend:", "Backend:", "AI/ML:", "Languages:", "Relevant Coursework:", "B.S./M.S. (4+1) in Computer Science", "OM KIRANBHAI PATEL"] none (mChunk17.toList ++ R) =
    textbfAcc ["ConvertEase Discord Bot", "Custom C\\texttt\x7b++", "Next.js", "AI-Enabled Mevent Console", "3\u00d7 faster", "NumPy/cuML", "GPU-Accelerated Binary Classifier", "machine learning for job-skill mapping", "3\u00d7 faster", "React, Node.js, and Firebase", "GetCoverly.ai", "40\\%", "edge devices via MQTT", "100\\% accuracy", "MTCNN + FaceNet models", "AWS Lambda, SQS, ECR, and IoT Greengrass", "cloud + edge AI system", "Serverless \\& Edge-Based Face Recognition Pipeline", "zero-touch infrastructure operations", "CI/CD automation with Docker, kubectl, and kind", "enabling instant deployment validation", "Node.js, Express, and GitHub webhooks", "Kubernetes", "Preview Environment Manager", "Django", "Three Martian IT Solutions", "Python", "Salesforce", "Arizona State University", "Apple TestFlight", "Stripe", "Firebase", "serverless backend operations", "React Native", "TheBeautyRunners", "Cloud/DevOps:", "Frontend:", "Backend:", "AI/ML:", "Languages:", "Relevant Coursework:", "B.S./M.S. (4+1) in Computer Science", "OM KIRANBHAI PATEL"] none R := rfl

theorem textbfStepLast : textbfAcc ["ConvertEase Discord Bot", "Custom C\\texttt\x7b++", "Next.js", "AI-Enabled Mevent Console", "3\u00d7 faster", "NumPy/cuML", "GPU-Accelerated Binary Classifier", "machine learning for job-skill mapping", "3\u00d7 faster", "React, Node.js, and Firebase", "GetCoverly.ai", "40\\%", "edge devices via MQTT", "100\\% accuracy", "MTCNN + FaceNet models", "AWS Lambda, SQS, ECR, and IoT Greengrass", "cloud + edge AI system", "Serverless \\& Edge-Based Face Recognition Pipeline", "zero-touch infrastructure operations", "CI/CD automation with Docker, kubectl, and kind", "enabling instant deployment validation", "Node.js, Express, and GitHub webhooks", "Kubernetes", "Preview Environment Manager", "Django", "Three Martian IT Solutions", "Python", "Salesforce", "Arizona State University", "Apple TestFlight", "Stripe", "Firebase", "serverless backend operations", "React Native", "TheBeautyRunners", "Cloud/DevOps:", "Frontend:", "Backend:", "AI/ML:", "Languages:", "Relevant Coursework:", "B.S./M.S. (4+1) in Computer Science", "OM KIRANBHAI PATEL"] none mChunk18.toList = masterBoldList := rfl

theorem count_master_items : count_itemize_items MASTER_LATEX = 29 := by
  unfold count_itemize_items
  rw [master_toList, countStep0, countStep1, countStep2, countStep3, countStep4, countStep5, countStep6, countStep7, countStep8, countStep9, countStep10, countStep11, countStep12, countStep13, countStep14, countStep15, countStep16, countStep17]
  exact countStepLast

theorem textbf_master : textbfArgs MASTER_LATEX = masterBoldList := by
  unfold textbfArgs
  rw [master_toList, textbfStep0, textbfStep1, textbfStep2, textbfStep3, textbfStep4, textbfStep5, textbfStep6, textbfStep7, textbfStep8, textbfStep9, textbfStep10, textbfStep11, textbfStep12, textbfStep13, textbfStep14, textbfStep15, textbfStep16, textbfStep17]
  exact textbfStepLast

theorem skills_in_master :
    containsL skillsMarker.toList MASTER_LATEX.toList = true := by
  rw [master_toList]
  apply contains_peel
  apply contains_peel
  apply contains_peel
  decide

theorem experience_in_master :
    containsL experienceMarker.toList MASTER_LATEX.toList = true := by
  rw [master_toList]
  apply contains_peel
  apply contains_peel
  apply contains_peel
  apply contains_peel
  decide

theorem projects_in_master :
    containsL projectsMarker.toList MASTER_LATEX.toList = true := by
  rw [master_toList]
  apply contains_peel
  apply contains_peel
  apply contains_peel
  apply contains_peel
  apply contains_peel
  apply contains_peel
  apply contains_peel
  apply contains_peel
  apply contains_peel
  decide

theorem master_markers_none : firstMissingMarker MASTER_LATEX = none := by
  have h1 : containsL skillsMarker.data MASTER_LATEX.data = true := skills_in_master
  have h2 : containsL experienceMarker.data MASTER_LATEX.data = true := experience_in_master
  have h3 : containsL projectsMarker.data MASTER_LATEX.data = true := projects_in_master
  simp [firstMissingMarker, requiredMarkers, List.filter, h1, h2, h3]

/-! ### Claim theorems -/

/-- C5: for every job record, the pipeline invokes the generation
collaborator at most twice; the Sanitizer→Merger→Validator chain is a total
function of the candidate strings (so it terminates on every input), the
generation call's own network retry behavior being external. -/
theorem C5_at_most_two_generation_calls (master c1 c2 : String) :
    (processRecord master c1 c2).2 ≤ 2 := by
  unfold processRecord
  repeat' split
  all_goals simp

/-- C7: `require_bullet_count_stable` accepts exactly when the candidate's
bullet count lies in the inclusive band
`[reference − max_drop, reference + max_add]`; and whenever the (pipeline's)
bullet check passes on the merged first attempt, no corrective regeneration
happens (one generation call), so a candidate exactly `max_drop` below the
reference passes directly. -/
theorem C7_bullet_tolerance_iff :
    (∀ (master tailored : String) (max_drop max_add : Int),
      require_bullet_count_stable master tailored max_drop max_add = Except.ok () ↔
        ((count_itemize_items master : Int) - max_drop ≤ (count_itemize_items tailored : Int) ∧
         (count_itemize_items tailored : Int) ≤ (count_itemize_items master : Int) + max_add))
    ∧
    (∀ (master c1 c2 merged : String),
      prepFirst master c1 = Except.ok merged →
      require_same_section_markers master merged = Except.ok () →
      require_bullet_count_stable master merged 10 10 = Except.ok () →
      (processRecord master c1 c2).2 = 1) := by
  constructor
  · intro master tailored max_drop max_add
    unfold require_bullet_count_stable
    by_cases h : ((count_itemize_items tailored : Int) < (count_itemize_items master : Int) - max_drop
        ∨ (count_itemize_items tailored : Int) > (count_itemize_items master : Int) + max_add)
    · rw [if_pos h]
      constructor
      · intro hc; exact Except.noConfusion hc
      · intro hc; exfalso; omega
    · rw [if_neg h]
      constructor
      · intro _; omega
      · intro _; rfl
  · intro master c1 c2 merged hprep hmk hbul
    unfold processRecord
    rw [hprep]
    dsimp only
    rw [hmk]
    dsimp only
    rw [hbul]
    by_cases h : (looks_like_latex_resume merged).1 = true <;> simp [h]

/-- Witness for C7 at a concrete boundary input: the candidate has exactly
`max_drop` fewer bullets than the reference and passes, with one generation
call. -/
theorem C7_bullet_tolerance_iff_witness :
    (require_bullet_count_stable "\\item\n\\item" "\\item" 1 0 = Except.ok () ↔
      ((count_itemize_items "\\item\n\\item" : Int) - 1 ≤ (count_itemize_items "\\item" : Int) ∧
       (count_itemize_items "\\item" : Int) ≤ (count_itemize_items "\\item\n\\item" : Int) + 0))
    ∧ (processRecord C7wMaster C7wCand "").2 = 1 :=
  ⟨C7_bullet_tolerance_iff.1 "\\item\n\\item" "\\item" 1 0,
   C7_bullet_tolerance_iff.2 C7wMaster C7wCand "" C7wMerged (by decide) (by decide) (by decide)⟩

/-- C10: every successful `fetch_by_status` call requests a page size of
`min(max(limit, 1), 20)` — hence at most 20 records, and at least 1 even for
`limit ≤ 0` — and asks for results sorted by ascending creation time. -/
theorem C10_fetch_page_size (status_name : String) (limit : Int)
    (idx : List (String × String × String)) (q : QueryPayload)
    (h : fetch_by_status status_name limit idx = Except.ok q) :
    q.pageSize = min (max limit 1) 20 ∧ q.pageSize ≤ 20 ∧
    (limit ≤ 0 → q.pageSize = 1) ∧
    q.sortTimestamp = "created_time" ∧ q.sortDirection = "ascending" := by
  unfold fetch_by_status at h
  cases hr : resolve_prop idx "Status" with
  | none => rw [hr] at h; exact Except.noConfusion h
  | some p =>
    obtain ⟨actual, ptype⟩ := p
    rw [hr] at h
    dsimp only at h
    by_cases ht : (ptype = "status" ∨ ptype = "select")
    · rw [if_pos ht] at h
      cases h
      refine ⟨rfl, ?_, ?_, rfl, rfl⟩
      · simp only [min_le_iff]; right; exact le_refl 20
      · intro hl
        have h1 : max limit 1 = 1 := by omega
        rw [h1]
        norm_num
    · rw [if_neg ht] at h; exact Except.noConfusion h

/-- Witness for C10 at a concrete index and an oversized limit of 100: the
requested page size is 20. -/
theorem C10_fetch_page_size_witness :
    ({ filterProperty := "Status", filterKind := "status",
       filterEquals := "Not Applied", pageSize := 20,
       sortTimestamp := "created_time", sortDirection := "ascending" } :
        QueryPayload).pageSize = min (max (100 : Int) 1) 20 ∧
    ({ filterProperty := "Status", filterKind := "status",
       filterEquals := "Not Applied", pageSize := 20,
       sortTimestamp := "created_time", sortDirection := "ascending" } :
        QueryPayload).pageSize ≤ 20 ∧
    ((100 : Int) ≤ 0 →
      ({ filterProperty := "Status", filterKind := "status",
         filterEquals := "Not Applied", pageSize := 20,
         sortTimestamp := "created_time", sortDirection := "ascending" } :
          QueryPayload).pageSize = 1) ∧
    ({ filterProperty := "Status", filterKind := "status",
       filterEquals := "Not Applied", pageSize := 20,
       sortTimestamp := "created_time", sortDirection := "ascending" } :
        QueryPayload).sortTimestamp = "created_time" ∧
    ({ filterProperty := "Status", filterKind := "status",
       filterEquals := "Not Applied", pageSize := 20,
       sortTimestamp := "created_time", sortDirection := "ascending" } :
        QueryPayload).sortDirection = "ascending" :=
  C10_fetch_page_size "Not Applied" 100 [("status", "Status", "status")] _ (by decide)

/-! ### Idempotence of `escape_tex_specials` -/

theorem shB_append (ch : Char) :
    ∀ (a b : List Char) (q : Option Char),
      shB ch q a = true → shB ch (ctxAfter q a) b = true → shB ch q (a ++ b) = true := by
  intro a
  induction a with
  | nil => intro b q _ hb; exact hb
  | cons c a' ih =>
    intro b q ha hb
    simp only [shB, Bool.and_eq_true] at ha
    simp only [List.cons_append, shB, Bool.and_eq_true]
    exact ⟨ha.1, ih b (some c) ha.2 hb⟩

/-- A substitution pass makes every occurrence of its character shielded,
provided its replacement is internally shielded and the character is not a
backslash. -/
theorem subNP_shielded (ch : Char) (rep : List Char) (hch : ch ≠ '\\')
    (hrep : ∀ q, shB ch q rep = true) :
    ∀ (l : List Char) (prev q : Option Char),
      (prev = some '\\' → q = some '\\') →
      shB ch q (subNP ch rep prev l) = true := by
  intro l
  induction l with
  | nil => intro prev q _; rfl
  | cons c rest ih =>
    intro prev q halign
    unfold subNP
    by_cases hm : (c = ch ∧ prev ≠ some '\\')
    · rw [if_pos hm]
      refine shB_append ch rep _ q (hrep q) ?_
      refine ih (some c) (ctxAfter q rep) ?_
      intro hc
      rw [hm.1] at hc
      exact absurd (Option.some_injective _ hc) hch
    · rw [if_neg hm]
      simp only [shB, Bool.and_eq_true]
      constructor
      · by_cases hc : c = ch
        · have hprev : prev = some '\\' := by
            by_contra hnp
            exact hm ⟨hc, hnp⟩
          rw [halign hprev]
          simp
        · simp [bne, hc]
      · exact ih (some c) (some c) (fun h => h)

/-- A substitution pass for a different character preserves shielding,
provided its replacement is shielded for the preserved character. -/
theorem subNP_preserves_shielded (ch ch' : Char) (rep' : List Char)
    (hch' : ch' ≠ '\\') (hrep' : ∀ q, shB ch q rep' = true) :
    ∀ (l : List Char) (prev q : Option Char),
      shB ch prev l = true →
      (prev = some '\\' → q = some '\\') →
      shB ch q (subNP ch' rep' prev l) = true := by
  intro l
  induction l with
  | nil => intro prev q _ _; rfl
  | cons c rest ih =>
    intro prev q hsh halign
    simp only [shB, Bool.and_eq_true] at hsh
    unfold subNP
    by_cases hm : (c = ch' ∧ prev ≠ some '\\')
    · rw [if_pos hm]
      refine shB_append ch rep' _ q (hrep' q) ?_
      refine ih (some c) (ctxAfter q rep') hsh.2 ?_
      intro hc
      rw [hm.1] at hc
      exact absurd (Option.some_injective _ hc) hch'
    · rw [if_neg hm]
      simp only [shB, Bool.and_eq_true]
      constructor
      · by_cases hc : c = ch
        · have h1 := hsh.1
          simp only [hc, bne_self_eq_false, Bool.false_or] at h1
          have hprev : prev = some '\\' := by
            cases prev with
            | none => simp at h1
            | some d => simpa using congrArg (fun x => x) (by simpa using h1 : d = '\\') ▸ rfl
          rw [halign hprev]
          simp
        · simp [bne, hc]
      · exact ih (some c) (some c) hsh.2 (fun h => h)

/-- A substitution pass is the identity on a string whose occurrences of the
character are all shielded. -/
theorem subNP_id_of_shielded (ch : Char) (rep : List Char) :
    ∀ (l : List Char) (prev : Option Char),
      shB ch prev l = true → subNP ch rep prev l = l := by
  intro l
  induction l with
  | nil => intro prev _; rfl
  | cons c rest ih =>
    intro prev hsh
    simp only [shB, Bool.and_eq_true] at hsh
    unfold subNP
    have hm : ¬(c = ch ∧ prev ≠ some '\\') := by
      rintro ⟨hc, hnp⟩
      have h1 := hsh.1
      simp only [hc, bne_self_eq_false, Bool.false_or] at h1
      exact hnp (by simpa using h1)
    rw [if_neg hm]
    rw [ih (some c) hsh.2]
theorem escapeL_shielded_amp (l : List Char) : shB '&' none (escapeL l) = true := by
  unfold escapeL
  have h1 := subNP_shielded '&' repAmp (by decide) (fun q => rfl) l none none (fun h => h)
  have h2 := subNP_preserves_shielded '&' '%' repPercent (by decide) (fun q => rfl) (subNP '&' repAmp none l) none none h1 (fun h => h)
  have h3 := subNP_preserves_shielded '&' '$' repDollar (by decide) (fun q => rfl) (subNP '%' repPercent none (subNP '&' repAmp none l)) none none h2 (fun h => h)
  have h4 := subNP_preserves_shielded '&' '#' repHash (by decide) (fun q => rfl) (subNP '$' repDollar none (subNP '%' repPercent none (subNP '&' repAmp none l))) none none h3 (fun h => h)
  have h5 := subNP_preserves_shielded '&' '_' repUnderscore (by decide) (fun q => rfl) (subNP '#' repHash none (subNP '$' repDollar none (subNP '%' repPercent none (subNP '&' repAmp none l)))) none none h4 (fun h => h)
  have h6 := subNP_preserves_shielded '&' '^' repCircum (by decide) (fun q => rfl) (subNP '_' repUnderscore none (subNP '#' repHash none (subNP '$' repDollar none (subNP '%' repPercent none (subNP '&' repAmp none l))))) none none h5 (fun h => h)
  have h7 := subNP_preserves_shielded '&' '~' repTilde (by decide) (fun q => rfl) (subNP '^' repCircum none (subNP '_' repUnderscore none (subNP '#' repHash none (subNP '$' repDollar none (subNP '%' repPercent none (subNP '&' repAmp none l)))))) none none h6 (fun h => h)
  exact h7

theorem escapeL_shielded_percent (l : List Char) : shB '%' none (escapeL l) = true := by
  unfold escapeL
  have h1 := subNP_shielded '%' repPercent (by decide) (fun q => rfl) (subNP '&' repAmp none l) none none (fun h => h)
  have h2 := subNP_preserves_shielded '%' '$' repDollar (by decide) (fun q => rfl) (subNP '%' repPercent none (subNP '&' repAmp none l)) none none h1 (fun h => h)
  have h3 := subNP_preserves_shielded '%' '#' repHash (by decide) (fun q => rfl) (subNP '$' repDollar none (subNP '%' repPercent none (subNP '&' repAmp none l))) none none h2 (fun h => h)
  have h4 := subNP_preserves_shielded '%' '_' repUnderscore (by decide) (fun q => rfl) (subNP '#' repHash none (subNP '$' repDollar none (subNP '%' repPercent none (subNP '&' repAmp none l)))) none none h3 (fun h => h)
  have h5 := subNP_preserves_shielded '%' '^' repCircum (by decide) (fun q => rfl) (subNP '_' repUnderscore none (subNP '#' repHash none (subNP '$' repDollar none (subNP '%' repPercent none (subNP '&' repAmp none l))))) none none h4 (fun h => h)
  have h6 := subNP_preserves_shielded '%' '~' repTilde (by decide) (fun q => rfl) (subNP '^' repCircum none (subNP '_' repUnderscore none (subNP '#' repHash none (subNP '$' repDollar none (subNP '%' repPercent none (subNP '&' repAmp none l)))))) none none h5 (fun h => h)
  exact h6

theorem escapeL_shielded_dollar (l : List Char) : shB '$' none (escapeL l) = true := by
  unfold escapeL
  have h1 := subNP_shielded '$' repDollar (by decide) (fun q => rfl) (subNP '%' repPercent none (subNP '&' repAmp none l)) none none (fun h => h)
  have h2 := subNP_preserves_shielded '$' '#' repHash (by decide) (fun q => rfl) (subNP '$' repDollar none (subNP '%' repPercent none (subNP '&' repAmp none l))) none none h1 (fun h => h)
  have h3 := subNP_preserves_shielded '$' '_' repUnderscore (by decide) (fun q => rfl) (subNP '#' repHash none (subNP '$' repDollar none (subNP '%' repPercent none (subNP '&' repAmp none l)))) none none h2 (fun h => h)
  have h4 := subNP_preserves_shielded '$' '^' repCircum (by decide) (fun q => rfl) (subNP '_' repUnderscore none (subNP '#' repHash none (subNP '$' repDollar none (subNP '%' repPercent none (subNP '&' repAmp none l))))) none none h3 (fun h => h)
  have h5 := subNP_preserves_shielded '$' '~' repTilde (by decide) (fun q => rfl) (subNP '^' repCircum none (subNP '_' repUnderscore none (subNP '#' repHash none (subNP '$' repDollar none (subNP '%' repPercent none (subNP '&' repAmp none l)))))) none none h4 (fun h => h)
  exact h5

theorem escapeL_shielded_hash (l : List Char) : shB '#' none (escapeL l) = true := by
  unfold escapeL
  have h1 := subNP_shielded '#' repHash (by decide) (fun q => rfl) (subNP '$' repDollar none (subNP '%' repPercent none (subNP '&' repAmp none l))) none none (fun h => h)
  have h2 := subNP_preserves_shielded '#' '_' repUnderscore (by decide) (fun q => rfl) (subNP '#' repHash none (subNP '$' repDollar none (subNP '%' repPercent none (subNP '&' repAmp none l)))) none none h1 (fun h => h)
  have h3 := subNP_preserves_shielded '#' '^' repCircum (by decide) (fun q => rfl) (subNP '_' repUnderscore none (subNP '#' repHash none (subNP '$' repDollar none (subNP '%' repPercent none (subNP '&' repAmp none l))))) none none h2 (fun h => h)
  have h4 := subNP_preserves_shielded '#' '~' repTilde (by decide) (fun q => rfl) (subNP '^' repCircum none (subNP '_' repUnderscore none (subNP '#' repHash none (subNP '$' repDollar none (subNP '%' repPercent none (subNP '&' repAmp none l)))))) none none h3 (fun h => h)
  exact h4

theorem escapeL_shielded_underscore (l : List Char) : shB '_' none (escapeL l) = true := by
  unfold escapeL
  have h1 := subNP_shielded '_' repUnderscore (by decide) (fun q => rfl) (subNP '#' repHash none (subNP '$' repDollar none (subNP '%' repPercent none (subNP '&' repAmp none l)))) none none (fun h => h)
  have h2 := subNP_preserves_shielded '_' '^' repCircum (by decide) (fun q => rfl) (subNP '_' repUnderscore none (subNP '#' repHash none (subNP '$' repDollar none (subNP '%' repPercent none (subNP '&' repAmp none l))))) none none h1 (fun h => h)
  have h3 := subNP_preserves_shielded '_' '~' repTilde (by decide) (fun q => rfl) (subNP '^' repCircum none (subNP '_' repUnderscore none (subNP '#' repHash none (subNP '$' repDollar none (subNP '%' repPercent none (subNP '&' repAmp none l)))))) none none h2 (fun h => h)
  exact h3

theorem escapeL_shielded_circum (l : List Char) : shB '^' none (escapeL l) = true := by
  unfold escapeL
  have h1 := subNP_shielded '^' repCircum (by decide) (fun q => rfl) (subNP '_' repUnderscore none (subNP '#' repHash none (subNP '$' repDollar none (subNP '%' repPercent none (subNP '&' repAmp none l))))) none none (fun h => h)
  have h2 := subNP_preserves_shielded '^' '~' repTilde (by decide) (fun q => rfl) (subNP '^' repCircum none (subNP '_' repUnderscore none (subNP '#' repHash none (subNP '$' repDollar none (subNP '%' repPercent none (subNP '&' repAmp none l)))))) none none h1 (fun h => h)
  exact h2

theorem escapeL_shielded_tilde (l : List Char) : shB '~' none (escapeL l) = true := by
  unfold escapeL
  have h1 := subNP_shielded '~' repTilde (by decide) (fun q => rfl) (subNP '^' repCircum none (subNP '_' repUnderscore none (subNP '#' repHash none (subNP '$' repDollar none (subNP '%' repPercent none (subNP '&' repAmp none l)))))) none none (fun h => h)
  exact h1

theorem escapeL_id_of_all_shielded (l : List Char)
    (h1 : shB '&' none l = true) (h2 : shB '%' none l = true)
    (h3 : shB '$' none l = true) (h4 : shB '#' none l = true)
    (h5 : shB '_' none l = true) (h6 : shB '^' none l = true)
    (h7 : shB '~' none l = true) : escapeL l = l := by
  unfold escapeL
  rw [subNP_id_of_shielded '&' repAmp l none h1]
  rw [subNP_id_of_shielded '%' repPercent l none h2]
  rw [subNP_id_of_shielded '$' repDollar l none h3]
  rw [subNP_id_of_shielded '#' repHash l none h4]
  rw [subNP_id_of_shielded '_' repUnderscore l none h5]
  rw [subNP_id_of_shielded '^' repCircum l none h6]
  rw [subNP_id_of_shielded '~' repTilde l none h7]

theorem escapeL_idem (l : List Char) : escapeL (escapeL l) = escapeL l :=
  escapeL_id_of_all_shielded (escapeL l)
    (escapeL_shielded_amp l) (escapeL_shielded_percent l) (escapeL_shielded_dollar l)
    (escapeL_shielded_hash l) (escapeL_shielded_underscore l) (escapeL_shielded_circum l)
    (escapeL_shielded_tilde l)

/-- C8: applying the reserved-character escaping twice yields the same
string as applying it once, for every input: after one pass every special
character is shielded by a backslash, and a pass never rewrites a shielded
occurrence (no double escaping). -/
theorem C8_escape_idempotent (s : String) :
    escape_tex_specials (escape_tex_specials s) = escape_tex_specials s := by
  unfold escape_tex_specials
  have h : ((escapeL s.toList).asString).toList = escapeL s.toList := rfl
  rw [h, escapeL_idem]

/-! ### Character provenance through the sanitizer stages -/

theorem mem_replaceCharL (a c : Char) (rep : List Char) :
    ∀ l : List Char, a ∈ replaceCharL c rep l → a ∈ l ∨ a ∈ rep := by
  intro l
  induction l with
  | nil => intro h; exact absurd h (List.not_mem_nil a)
  | cons b rest ih =>
    unfold replaceCharL
    by_cases hb : b = c
    · rw [if_pos hb]
      intro h
      rcases List.mem_append.mp h with h1 | h2
      · exact Or.inr h1
      · rcases ih h2 with h3 | h4
        · exact Or.inl (List.mem_cons_of_mem b h3)
        · exact Or.inr h4
    · rw [if_neg hb]
      intro h
      rcases List.mem_cons.mp h with h1 | h2
      · exact Or.inl (h1 ▸ List.mem_cons_self b rest)
      · rcases ih h2 with h3 | h4
        · exact Or.inl (List.mem_cons_of_mem b h3)
        · exact Or.inr h4

theorem not_mem_replaceCharL_self (c : Char) (rep : List Char) (hrep : c ∉ rep) :
    ∀ l : List Char, c ∉ replaceCharL c rep l := by
  intro l
  induction l with
  | nil => exact List.not_mem_nil c
  | cons b rest ih =>
    unfold replaceCharL
    by_cases hb : b = c
    · rw [if_pos hb]
      intro h
      rcases List.mem_append.mp h with h1 | h2
      · exact hrep h1
      · exact ih h2
    · rw [if_neg hb]
      intro h
      rcases List.mem_cons.mp h with h1 | h2
      · exact hb h1.symm
      · exact ih h2

theorem not_mem_replaceCharL_of (a c : Char) (rep : List Char) (l : List Char)
    (hl : a ∉ l) (hrep : a ∉ rep) : a ∉ replaceCharL c rep l := by
  intro h
  rcases mem_replaceCharL a c rep l h with h1 | h2
  · exact hl h1
  · exact hrep h2

theorem mem_replaceFuel (a : Char) (old new : List Char) :
    ∀ (n : Nat) (l : List Char), a ∈ replaceFuel old new n l → a ∈ l ∨ a ∈ new := by
  intro n
  induction n with
  | zero =>
    intro l h
    cases l with
    | nil => exact absurd h (List.not_mem_nil a)
    | cons b rest => exact Or.inl h
  | succ m ih =>
    intro l
    cases l with
    | nil => intro h; exact absurd h (List.not_mem_nil a)
    | cons b rest =>
      unfold replaceFuel
      by_cases hp : List.isPrefixOf old (b :: rest) = true
      · rw [if_pos hp]
        intro h
        rcases List.mem_append.mp h with h1 | h2
        · exact Or.inr h1
        · rcases ih _ h2 with h3 | h4
          · exact Or.inl (List.mem_cons_of_mem b ((List.drop_sublist _ _).subset h3))
          · exact Or.inr h4
      · rw [if_neg hp]
        intro h
        rcases List.mem_cons.mp h with h1 | h2
        · exact Or.inl (h1 ▸ List.mem_cons_self b rest)
        · rcases ih rest h2 with h3 | h4
          · exact Or.inl (List.mem_cons_of_mem b h3)
          · exact Or.inr h4

theorem mem_rstripGo (a : Char) :
    ∀ (l ws : List Char), a ∈ rstripGo ws l → a ∈ ws ∨ a ∈ l := by
  intro l
  induction l with
  | nil => intro ws h; exact absurd h (List.not_mem_nil a)
  | cons b rest ih =>
    intro ws
    unfold rstripGo
    by_cases hb : pyIsSpace b = true
    · rw [if_pos hb]
      intro h
      rcases ih (ws ++ [b]) h with h1 | h2
      · rcases List.mem_append.mp h1 with h3 | h4
        · exact Or.inl h3
        · exact Or.inr (List.mem_singleton.mp h4 ▸ List.mem_cons_self b rest)
      · exact Or.inr (List.mem_cons_of_mem b h2)
    · rw [if_neg hb]
      intro h
      rcases List.mem_append.mp h with h1 | h2
      · exact Or.inl h1
      · rcases List.mem_cons.mp h2 with h3 | h4
        · exact Or.inr (h3 ▸ List.mem_cons_self b rest)
        · rcases ih [] h4 with h5 | h6
          · exact absurd h5 (List.not_mem_nil a)
          · exact Or.inr (List.mem_cons_of_mem b h6)

theorem mem_pyStrip (a : Char) (l : List Char) (h : a ∈ pyStrip l) : a ∈ l := by
  unfold pyStrip at h
  rcases mem_rstripGo a _ [] h with h1 | h2
  · exact absurd h1 (List.not_mem_nil a)
  · exact (List.dropWhile_sublist pyIsSpace).subset h2

theorem mem_dropLeadingFence (a : Char) (l : List Char)
    (h : a ∈ dropLeadingFence l) : a ∈ l := by
  unfold dropLeadingFence at h
  by_cases hf : List.isPrefixOf fenceTok (l.dropWhile pyIsSpace) = true
  · rw [if_pos hf] at h
    dsimp only at h
    rcases hk : lastNlIdx (((l.dropWhile pyIsSpace).drop 3).dropWhile isFenceWordChar |>.takeWhile pyIsSpace) with _ | k
    · rw [hk] at h; exact h
    · rw [hk] at h
      have h1 := (List.drop_sublist (k + 1) _).subset h
      have h2 := (List.dropWhile_sublist isFenceWordChar).subset h1
      have h3 := (List.drop_sublist 3 _).subset h2
      exact (List.dropWhile_sublist pyIsSpace).subset h3
  · rw [if_neg hf] at h; exact h

theorem mem_dropTrailingFence (a : Char) (l : List Char)
    (h : a ∈ dropTrailingFence l) : a ∈ l := by
  unfold dropTrailingFence at h
  cases hi : trailingFenceIdxGo l 0 with
  | none => rw [hi] at h; exact h
  | some i => rw [hi] at h; exact (List.take_sublist i l).subset h

theorem mem_sliceStart (a : Char) (l : List Char) (h : a ∈ sliceStart l) : a ∈ l := by
  unfold sliceStart at h
  cases hi : findL dcTok l with
  | none => rw [hi] at h; exact h
  | some i => rw [hi] at h; exact (List.drop_sublist i l).subset h

theorem mem_sliceEnd (a : Char) (l : List Char) (h : a ∈ sliceEnd l) : a ∈ l := by
  unfold sliceEnd at h
  cases hi : rfindL edTok l with
  | none => rw [hi] at h; exact h
  | some e => rw [hi] at h; exact (List.take_sublist (e + edTok.length) l).subset h

theorem mem_replace1L (a : Char) (old new : List Char) :
    ∀ l : List Char, a ∈ replace1L old new l → a ∈ l ∨ a ∈ new := by
  intro l
  induction l with
  | nil => intro h; exact absurd h (List.not_mem_nil a)
  | cons b rest ih =>
    unfold replace1L
    by_cases hp : List.isPrefixOf old (b :: rest) = true
    · rw [if_pos hp]
      intro h
      rcases List.mem_append.mp h with h1 | h2
      · exact Or.inr h1
      · exact Or.inl (List.mem_cons_of_mem b ((List.drop_sublist _ _).subset h2))
    · rw [if_neg hp]
      intro h
      rcases List.mem_cons.mp h with h1 | h2
      · exact Or.inl (h1 ▸ List.mem_cons_self b rest)
      · rcases ih h2 with h3 | h4
        · exact Or.inl (List.mem_cons_of_mem b h3)
        · exact Or.inr h4

theorem mem_joinNl (a : Char) :
    ∀ ps : List (List Char), a ∈ joinNl ps → (∃ p ∈ ps, a ∈ p) ∨ a = '\n' := by
  intro ps
  induction ps with
  | nil => intro h; exact absurd h (List.not_mem_nil a)
  | cons x xs ih =>
    cases xs with
    | nil =>
      intro h
      exact Or.inl ⟨x, List.mem_cons_self x [], h⟩
    | cons y ys =>
      intro h
      rcases List.mem_append.mp h with h1 | h2
      · exact Or.inl ⟨x, List.mem_cons_self x (y :: ys), h1⟩
      · rcases List.mem_cons.mp h2 with h3 | h4
        · exact Or.inr h3
        · rcases ih h4 with ⟨p, hp, hap⟩ | h5
          · exact Or.inl ⟨p, List.mem_cons_of_mem x hp, hap⟩
          · exact Or.inr h5

set_option maxHeartbeats 4000000 in
theorem mem_splitlinesGo (a : Char) :
    ∀ (cur l : List Char), ∀ p ∈ splitlinesGo cur l, a ∈ p → a ∈ cur ∨ a ∈ l := by
  intro cur l
  induction cur, l using splitlinesGo.induct with
  | case1 =>
    intro p hp
    simp only [splitlinesGo] at hp
    simp at hp
  | case2 cur hcur =>
    intro p hp ha
    simp only [splitlinesGo] at hp
    rw [if_neg hcur] at hp
    simp only [List.mem_singleton] at hp
    subst hp
    exact Or.inl (List.mem_reverse.mp ha)
  | case3 cur rest ih =>
    intro p hp ha
    simp only [splitlinesGo] at hp
    rcases List.mem_cons.mp hp with h1 | h2
    · subst h1; exact Or.inl (List.mem_reverse.mp ha)
    · rcases ih p h2 ha with h3 | h4
      · simp at h3
      · exact Or.inr (by simp [h4])
  | case4 cur c rest hne hlb ih =>
    intro p hp ha
    rw [splitlinesGo.eq_3 cur c rest hne, if_pos hlb] at hp
    rcases List.mem_cons.mp hp with h1 | h2
    · subst h1; exact Or.inl (List.mem_reverse.mp ha)
    · rcases ih p h2 ha with h3 | h4
      · simp at h3
      · exact Or.inr (List.mem_cons_of_mem c h4)
  | case5 cur c rest hne hlb ih =>
    intro p hp ha
    rw [splitlinesGo.eq_3 cur c rest hne, if_neg hlb] at hp
    rcases ih p hp ha with h3 | h4
    · rcases List.mem_cons.mp h3 with h5 | h6
      · exact Or.inr (h5 ▸ List.mem_cons_self c rest)
      · exact Or.inl h6
    · exact Or.inr (List.mem_cons_of_mem c h4)

theorem mem_subNP (a ch : Char) (rep : List Char) :
    ∀ (l : List Char) (prev : Option Char),
      a ∈ subNP ch rep prev l → a ∈ l ∨ a ∈ rep := by
  intro l
  induction l with
  | nil => intro prev h; exact absurd h (List.not_mem_nil a)
  | cons b rest ih =>
    intro prev
    unfold subNP
    by_cases hm : (b = ch ∧ prev ≠ some '\\')
    · rw [if_pos hm]
      intro h
      rcases List.mem_append.mp h with h1 | h2
      · exact Or.inr h1
      · rcases ih (some b) h2 with h3 | h4
        · exact Or.inl (List.mem_cons_of_mem b h3)
        · exact Or.inr h4
    · rw [if_neg hm]
      intro h
      rcases List.mem_cons.mp h with h1 | h2
      · exact Or.inl (h1 ▸ List.mem_cons_self b rest)
      · rcases ih (some b) h2 with h3 | h4
        · exact Or.inl (List.mem_cons_of_mem b h3)
        · exact Or.inr h4

theorem mem_lineRepair (a : Char) (l : List Char) (h : a ∈ lineRepair l) :
    a ∈ l ∨ a ∈ dcTok ∨ a ∈ upTok ∨ a = '\n' := by
  unfold lineRepair at h
  cases hs : splitlinesL l with
  | nil => rw [hs] at h; exact absurd h (List.not_mem_nil a)
  | cons l0 rest =>
    rw [hs] at h
    dsimp only at h
    rcases mem_joinNl a _ h with ⟨p, hp, hap⟩ | hnl
    · rcases List.mem_cons.mp hp with h1 | h2
      · -- p is the (possibly repaired) first line
        subst h1
        have step2 :
            a ∈ (if List.isPrefixOf dcNoBs (pyLstrip l0) = true
                 then replace1L dcNoBs dcTok l0 else l0) ∨ a ∈ upTok := by
          by_cases hup : List.isPrefixOf upNoBs (pyLstrip l0) = true
          · rw [if_pos hup] at hap
            rcases mem_replace1L a upNoBs upTok _ hap with h3 | h4
            · exact Or.inl h3
            · exact Or.inr h4
          · rw [if_neg hup] at hap
            exact Or.inl hap
        have step1 : a ∈ l0 ∨ a ∈ dcTok ∨ a ∈ upTok := by
          rcases step2 with h3 | h4
          · by_cases hdc : List.isPrefixOf dcNoBs (pyLstrip l0) = true
            · rw [if_pos hdc] at h3
              rcases mem_replace1L a dcNoBs dcTok _ h3 with h5 | h6
              · exact Or.inl h5
              · exact Or.inr (Or.inl h6)
            · rw [if_neg hdc] at h3
              exact Or.inl h3
          · exact Or.inr (Or.inr h4)
        rcases step1 with h3 | h4
        · have hm := mem_splitlinesGo a [] l l0 (by rw [splitlinesL] at hs; rw [hs]; exact List.mem_cons_self l0 rest) h3
          rcases hm with h5 | h6
          · exact absurd h5 (List.not_mem_nil a)
          · exact Or.inl h6
        · exact Or.inr (h4.imp_right Or.inl)
      · -- p is one of the remaining lines
        have hm := mem_splitlinesGo a [] l p (by rw [splitlinesL] at hs; rw [hs]; exact List.mem_cons_of_mem l0 h2) hap
        rcases hm with h5 | h6
        · exact absurd h5 (List.not_mem_nil a)
        · exact Or.inl h6
    · exact Or.inr (Or.inr (Or.inr hnl))
theorem mem_escapeL (a : Char) (m : List Char) (h : a ∈ escapeL m) :
    a ∈ m ∨ a ∈ (repAmp ++ repPercent ++ repDollar ++ repHash ++ repUnderscore ++ repCircum ++ repTilde) := by
  unfold escapeL at h
  rcases mem_subNP a '~' repTilde (subNP '^' repCircum none (subNP '_' repUnderscore none (subNP '#' repHash none (subNP '$' repDollar none (subNP '%' repPercent none (subNP '&' repAmp none m)))))) none h with h | hr6
  case inr => exact Or.inr (by simp only [List.mem_append]; tauto)
  rcases mem_subNP a '^' repCircum (subNP '_' repUnderscore none (subNP '#' repHash none (subNP '$' repDollar none (subNP '%' repPercent none (subNP '&' repAmp none m))))) none h with h | hr5
  case inr => exact Or.inr (by simp only [List.mem_append]; tauto)
  rcases mem_subNP a '_' repUnderscore (subNP '#' repHash none (subNP '$' repDollar none (subNP '%' repPercent none (subNP '&' repAmp none m)))) none h with h | hr4
  case inr => exact Or.inr (by simp only [List.mem_append]; tauto)
  rcases mem_subNP a '#' repHash (subNP '$' repDollar none (subNP '%' repPercent none (subNP '&' repAmp none m))) none h with h | hr3
  case inr => exact Or.inr (by simp only [List.mem_append]; tauto)
  rcases mem_subNP a '$' repDollar (subNP '%' repPercent none (subNP '&' repAmp none m)) none h with h | hr2
  case inr => exact Or.inr (by simp only [List.mem_append]; tauto)
  rcases mem_subNP a '%' repPercent (subNP '&' repAmp none m) none h with h | hr1
  case inr => exact Or.inr (by simp only [List.mem_append]; tauto)
  rcases mem_subNP a '&' repAmp m none h with h | hr0
  case inr => exact Or.inr (by simp only [List.mem_append]; tauto)
  exact Or.inl h

theorem mem_normalizeL (a : Char) (m : List Char) (h : a ∈ normalizeL m) :
    a ∈ m ∨ a ∈ ['-', quoteChar, dquoteChar, 'x', ' '] := by
  unfold normalizeL at h
  rcases mem_replaceCharL a '\xa0' [' '] (replaceCharL '\xd7' ['x'] (replaceCharL '\u2022' ['-'] (replaceCharL '\u201d' [dquoteChar] (replaceCharL '\u201c' [dquoteChar] (replaceCharL '\u2019' [quoteChar] (replaceCharL '\u2018' [quoteChar] (replaceCharL '\u2014' ['-'] (replaceCharL '\u2013' ['-'] m)))))))) h with h | hr8
  case inr => rw [List.mem_singleton] at hr8; subst hr8; exact Or.inr (by decide)
  rcases mem_replaceCharL a '\xd7' ['x'] (replaceCharL '\u2022' ['-'] (replaceCharL '\u201d' [dquoteChar] (replaceCharL '\u201c' [dquoteChar] (replaceCharL '\u2019' [quoteChar] (replaceCharL '\u2018' [quoteChar] (replaceCharL '\u2014' ['-'] (replaceCharL '\u2013' ['-'] m))))))) h with h | hr7
  case inr => rw [List.mem_singleton] at hr7; subst hr7; exact Or.inr (by decide)
  rcases mem_replaceCharL a '\u2022' ['-'] (replaceCharL '\u201d' [dquoteChar] (replaceCharL '\u201c' [dquoteChar] (replaceCharL '\u2019' [quoteChar] (replaceCharL '\u2018' [quoteChar] (replaceCharL '\u2014' ['-'] (replaceCharL '\u2013' ['-'] m)))))) h with h | hr6
  case inr => rw [List.mem_singleton] at hr6; subst hr6; exact Or.inr (by decide)
  rcases mem_replaceCharL a '\u201d' [dquoteChar] (replaceCharL '\u201c' [dquoteChar] (replaceCharL '\u2019' [quoteChar] (replaceCharL '\u2018' [quoteChar] (replaceCharL '\u2014' ['-'] (replaceCharL '\u2013' ['-'] m))))) h with h | hr5
  case inr => rw [List.mem_singleton] at hr5; subst hr5; exact Or.inr (by decide)
  rcases mem_replaceCharL a '\u201c' [dquoteChar] (replaceCharL '\u2019' [quoteChar] (replaceCharL '\u2018' [quoteChar] (replaceCharL '\u2014' ['-'] (replaceCharL '\u2013' ['-'] m)))) h with h | hr4
  case inr => rw [List.mem_singleton] at hr4; subst hr4; exact Or.inr (by decide)
  rcases mem_replaceCharL a '\u2019' [quoteChar] (replaceCharL '\u2018' [quoteChar] (replaceCharL '\u2014' ['-'] (replaceCharL '\u2013' ['-'] m))) h with h | hr3
  case inr => rw [List.mem_singleton] at hr3; subst hr3; exact Or.inr (by decide)
  rcases mem_replaceCharL a '\u2018' [quoteChar] (replaceCharL '\u2014' ['-'] (replaceCharL '\u2013' ['-'] m)) h with h | hr2
  case inr => rw [List.mem_singleton] at hr2; subst hr2; exact Or.inr (by decide)
  rcases mem_replaceCharL a '\u2014' ['-'] (replaceCharL '\u2013' ['-'] m) h with h | hr1
  case inr => rw [List.mem_singleton] at hr1; subst hr1; exact Or.inr (by decide)
  rcases mem_replaceCharL a '\u2013' ['-'] m h with h | hr0
  case inr => rw [List.mem_singleton] at hr0; subst hr0; exact Or.inr (by decide)
  exact Or.inl h

theorem not_mem_normalizeL_typo (c : Char) (hc : c ∈ typographicChars)
    (m : List Char) : c ∉ normalizeL m := by
  simp only [typographicChars, List.mem_cons, List.not_mem_nil, or_false] at hc
  unfold normalizeL
  rcases hc with rfl | rfl | rfl | rfl | rfl | rfl | rfl | rfl | rfl
  · have hk : ('\u2013' : Char) ∉ (replaceCharL '\u2013' ['-'] m) :=
      not_mem_replaceCharL_self '\u2013' ['-'] (by decide) m
    have hk1 : ('\u2013' : Char) ∉ (replaceCharL '\u2014' ['-'] (replaceCharL '\u2013' ['-'] m)) :=
      not_mem_replaceCharL_of '\u2013' '\u2014' ['-'] (replaceCharL '\u2013' ['-'] m) hk (by decide)
    have hk2 : ('\u2013' : Char) ∉ (replaceCharL '\u2018' [quoteChar] (replaceCharL '\u2014' ['-'] (replaceCharL '\u2013' ['-'] m))) :=
      not_mem_replaceCharL_of '\u2013' '\u2018' [quoteChar] (replaceCharL '\u2014' ['-'] (replaceCharL '\u2013' ['-'] m)) hk1 (by decide)
    have hk3 : ('\u2013' : Char) ∉ (replaceCharL '\u2019' [quoteChar] (replaceCharL '\u2018' [quoteChar] (replaceCharL '\u2014' ['-'] (replaceCharL '\u2013' ['-'] m)))) :=
      not_mem_replaceCharL_of '\u2013' '\u2019' [quoteChar] (replaceCharL '\u2018' [quoteChar] (replaceCharL '\u2014' ['-'] (replaceCharL '\u2013' ['-'] m))) hk2 (by decide)
    have hk4 : ('\u2013' : Char) ∉ (replaceCharL '\u201c' [dquoteChar] (replaceCharL '\u2019' [quoteChar] (replaceCharL '\u2018' [quoteChar] (replaceCharL '\u2014' ['-'] (replaceCharL '\u2013' ['-'] m))))) :=
      not_mem_replaceCharL_of '\u2013' '\u201c' [dquoteChar] (replaceCharL '\u2019' [quoteChar] (replaceCharL '\u2018' [quoteChar] (replaceCharL '\u2014' ['-'] (replaceCharL '\u2013' ['-'] m)))) hk3 (by decide)
    have hk5 : ('\u2013' : Char) ∉ (replaceCharL '\u201d' [dquoteChar] (replaceCharL '\u201c' [dquoteChar] (replaceCharL '\u2019' [quoteChar] (replaceCharL '\u2018' [quoteChar] (replaceCharL '\u2014' ['-'] (replaceCharL '\u2013' ['-'] m)))))) :=
      not_mem_replaceCharL_of '\u2013' '\u201d' [dquoteChar] (replaceCharL '\u201c' [dquoteChar] (replaceCharL '\u2019' [quoteChar] (replaceCharL '\u2018' [quoteChar] (replaceCharL '\u2014' ['-'] (replaceCharL '\u2013' ['-'] m))))) hk4 (by decide)
    have hk6 : ('\u2013' : Char) ∉ (replaceCharL '\u2022' ['-'] (replaceCharL '\u201d' [dquoteChar] (replaceCharL '\u201c' [dquoteChar] (replaceCharL '\u2019' [quoteChar] (replaceCharL '\u2018' [quoteChar] (replaceCharL '\u2014' ['-'] (replaceCharL '\u2013' ['-'] m))))))) :=
      not_mem_replaceCharL_of '\u2013' '\u2022' ['-'] (replaceCharL '\u201d' [dquoteChar] (replaceCharL '\u201c' [dquoteChar] (replaceCharL '\u2019' [quoteChar] (replaceCharL '\u2018' [quoteChar] (replaceCharL '\u2014' ['-'] (replaceCharL '\u2013' ['-'] m)))))) hk5 (by decide)
    have hk7 : ('\u2013' : Char) ∉ (replaceCharL '\xd7' ['x'] (replaceCharL '\u2022' ['-'] (replaceCharL '\u201d' [dquoteChar] (replaceCharL '\u201c' [dquoteChar] (replaceCharL '\u2019' [quoteChar] (replaceCharL '\u2018' [quoteChar] (replaceCharL '\u2014' ['-'] (replaceCharL '\u2013' ['-'] m)))))))) :=
      not_mem_replaceCharL_of '\u2013' '\xd7' ['x'] (replaceCharL '\u2022' ['-'] (replaceCharL '\u201d' [dquoteChar] (replaceCharL '\u201c' [dquoteChar] (replaceCharL '\u2019' [quoteChar] (replaceCharL '\u2018' [quoteChar] (replaceCharL '\u2014' ['-'] (replaceCharL '\u2013' ['-'] m))))))) hk6 (by decide)
    have hk8 : ('\u2013' : Char) ∉ (replaceCharL '\xa0' [' '] (replaceCharL '\xd7' ['x'] (replaceCharL '\u2022' ['-'] (replaceCharL '\u201d' [dquoteChar] (replaceCharL '\u201c' [dquoteChar] (replaceCharL '\u2019' [quoteChar] (replaceCharL '\u2018' [quoteChar] (replaceCharL '\u2014' ['-'] (replaceCharL '\u2013' ['-'] m))))))))) :=
      not_mem_replaceCharL_of '\u2013' '\xa0' [' '] (replaceCharL '\xd7' ['x'] (replaceCharL '\u2022' ['-'] (replaceCharL '\u201d' [dquoteChar] (replaceCharL '\u201c' [dquoteChar] (replaceCharL '\u2019' [quoteChar] (replaceCharL '\u2018' [quoteChar] (replaceCharL '\u2014' ['-'] (replaceCharL '\u2013' ['-'] m)))))))) hk7 (by decide)
    exact hk8
  · have hk : ('\u2014' : Char) ∉ (replaceCharL '\u2014' ['-'] (replaceCharL '\u2013' ['-'] m)) :=
      not_mem_replaceCharL_self '\u2014' ['-'] (by decide) (replaceCharL '\u2013' ['-'] m)
    have hk2 : ('\u2014' : Char) ∉ (replaceCharL '\u2018' [quoteChar] (replaceCharL '\u2014' ['-'] (replaceCharL '\u2013' ['-'] m))) :=
      not_mem_replaceCharL_of '\u2014' '\u2018' [quoteChar] (replaceCharL '\u2014' ['-'] (replaceCharL '\u2013' ['-'] m)) hk (by decide)
    have hk3 : ('\u2014' : Char) ∉ (replaceCharL '\u2019' [quoteChar] (replaceCharL '\u2018' [quoteChar] (replaceCharL '\u2014' ['-'] (replaceCharL '\u2013' ['-'] m)))) :=
      not_mem_replaceCharL_of '\u2014' '\u2019' [quoteChar] (replaceCharL '\u2018' [quoteChar] (replaceCharL '\u2014' ['-'] (replaceCharL '\u2013' ['-'] m))) hk2 (by decide)
    have hk4 : ('\u2014' : Char) ∉ (replaceCharL '\u201c' [dquoteChar] (replaceCharL '\u2019' [quoteChar] (replaceCharL '\u2018' [quoteChar] (replaceCharL '\u2014' ['-'] (replaceCharL '\u2013' ['-'] m))))) :=
      not_mem_replaceCharL_of '\u2014' '\u201c' [dquoteChar] (replaceCharL '\u2019' [quoteChar] (replaceCharL '\u2018' [quoteChar] (replaceCharL '\u2014' ['-'] (replaceCharL '\u2013' ['-'] m)))) hk3 (by decide)
    have hk5 : ('\u2014' : Char) ∉ (replaceCharL '\u201d' [dquoteChar] (replaceCharL '\u201c' [dquoteChar] (replaceCharL '\u2019' [quoteChar] (replaceCharL '\u2018' [quoteChar] (replaceCharL '\u2014' ['-'] (replaceCharL '\u2013' ['-'] m)))))) :=
      not_mem_replaceCharL_of '\u2014' '\u201d' [dquoteChar] (replaceCharL '\u201c' [dquoteChar] (replaceCharL '\u2019' [quoteChar] (replaceCharL '\u2018' [quoteChar] (replaceCharL '\u2014' ['-'] (replaceCharL '\u2013' ['-'] m))))) hk4 (by decide)
    have hk6 : ('\u2014' : Char) ∉ (replaceCharL '\u2022' ['-'] (replaceCharL '\u201d' [dquoteChar] (replaceCharL '\u201c' [dquoteChar] (replaceCharL '\u2019' [quoteChar] (replaceCharL '\u2018' [quoteChar] (replaceCharL '\u2014' ['-'] (replaceCharL '\u2013' ['-'] m))))))) :=
      not_mem_replaceCharL_of '\u2014' '\u2022' ['-'] (replaceCharL '\u201d' [dquoteChar] (replaceCharL '\u201c' [dquoteChar] (replaceCharL '\u2019' [quoteChar] (replaceCharL '\u2018' [quoteChar] (replaceCharL '\u2014' ['-'] (replaceCharL '\u2013' ['-'] m)))))) hk5 (by decide)
    have hk7 : ('\u2014' : Char) ∉ (replaceCharL '\xd7' ['x'] (replaceCharL '\u2022' ['-'] (replaceCharL '\u201d' [dquoteChar] (replaceCharL '\u201c' [dquoteChar] (replaceCharL '\u2019' [quoteChar] (replaceCharL '\u2018' [quoteChar] (replaceCharL '\u2014' ['-'] (replaceCharL '\u2013' ['-'] m)))))))) :=
      not_mem_replaceCharL_of '\u2014' '\xd7' ['x'] (replaceCharL '\u2022' ['-'] (replaceCharL '\u201d' [dquoteChar] (replaceCharL '\u201c' [dquoteChar] (replaceCharL '\u2019' [quoteChar] (replaceCharL '\u2018' [quoteChar] (replaceCharL '\u2014' ['-'] (replaceCharL '\u2013' ['-'] m))))))) hk6 (by decide)
    have hk8 : ('\u2014' : Char) ∉ (replaceCharL '\xa0' [' '] (replaceCharL '\xd7' ['x'] (replaceCharL '\u2022' ['-'] (replaceCharL '\u201d' [dquoteChar] (replaceCharL '\u201c' [dquoteChar] (replaceCharL '\u2019' [quoteChar] (replaceCharL '\u2018' [quoteChar] (replaceCharL '\u2014' ['-'] (replaceCharL '\u2013' ['-'] m))))))))) :=
      not_mem_replaceCharL_of '\u2014' '\xa0' [' '] (replaceCharL '\xd7' ['x'] (replaceCharL '\u2022' ['-'] (replaceCharL '\u201d' [dquoteChar] (replaceCharL '\u201c' [dquoteChar] (replaceCharL '\u2019' [quoteChar] (replaceCharL '\u2018' [quoteChar] (replaceCharL '\u2014' ['-'] (replaceCharL '\u2013' ['-'] m)))))))) hk7 (by decide)
    exact hk8
  · have hk : ('\u2018' : Char) ∉ (replaceCharL '\u2018' [quoteChar] (replaceCharL '\u2014' ['-'] (replaceCharL '\u2013' ['-'] m))) :=
      not_mem_replaceCharL_self '\u2018' [quoteChar] (by decide) (replaceCharL '\u2014' ['-'] (replaceCharL '\u2013' ['-'] m))
    have hk3 : ('\u2018' : Char) ∉ (replaceCharL '\u2019' [quoteChar] (replaceCharL '\u2018' [quoteChar] (replaceCharL '\u2014' ['-'] (replaceCharL '\u2013' ['-'] m)))) :=
      not_mem_replaceCharL_of '\u2018' '\u2019' [quoteChar] (replaceCharL '\u2018' [quoteChar] (replaceCharL '\u2014' ['-'] (replaceCharL '\u2013' ['-'] m))) hk (by decide)
    have hk4 : ('\u2018' : Char) ∉ (replaceCharL '\u201c' [dquoteChar] (replaceCharL '\u2019' [quoteChar] (replaceCharL '\u2018' [quoteChar] (replaceCharL '\u2014' ['-'] (replaceCharL '\u2013' ['-'] m))))) :=
      not_mem_replaceCharL_of '\u2018' '\u201c' [dquoteChar] (replaceCharL '\u2019' [quoteChar] (replaceCharL '\u2018' [quoteChar] (replaceCharL '\u2014' ['-'] (replaceCharL '\u2013' ['-'] m)))) hk3 (by decide)
    have hk5 : ('\u2018' : Char) ∉ (replaceCharL '\u201d' [dquoteChar] (replaceCharL '\u201c' [dquoteChar] (replaceCharL '\u2019' [quoteChar] (replaceCharL '\u2018' [quoteChar] (replaceCharL '\u2014' ['-'] (replaceCharL '\u2013' ['-'] m)))))) :=
      not_mem_replaceCharL_of '\u2018' '\u201d' [dquoteChar] (replaceCharL '\u201c' [dquoteChar] (replaceCharL '\u2019' [quoteChar] (replaceCharL '\u2018' [quoteChar] (replaceCharL '\u2014' ['-'] (replaceCharL '\u2013' ['-'] m))))) hk4 (by decide)
    have hk6 : ('\u2018' : Char) ∉ (replaceCharL '\u2022' ['-'] (replaceCharL '\u201d' [dquoteChar] (replaceCharL '\u201c' [dquoteChar] (replaceCharL '\u2019' [quoteChar] (replaceCharL '\u2018' [quoteChar] (replaceCharL '\u2014' ['-'] (replaceCharL '\u2013' ['-'] m))))))) :=
      not_mem_replaceCharL_of '\u2018' '\u2022' ['-'] (replaceCharL '\u201d' [dquoteChar] (replaceCharL '\u201c' [dquoteChar] (replaceCharL '\u2019' [quoteChar] (replaceCharL '\u2018' [quoteChar] (replaceCharL '\u2014' ['-'] (replaceCharL '\u2013' ['-'] m)))))) hk5 (by decide)
    have hk7 : ('\u2018' : Char) ∉ (replaceCharL '\xd7' ['x'] (replaceCharL '\u2022' ['-'] (replaceCharL '\u201d' [dquoteChar] (replaceCharL '\u201c' [dquoteChar] (replaceCharL '\u2019' [quoteChar] (replaceCharL '\u2018' [quoteChar] (replaceCharL '\u2014' ['-'] (replaceCharL '\u2013' ['-'] m)))))))) :=
      not_mem_replaceCharL_of '\u2018' '\xd7' ['x'] (replaceCharL '\u2022' ['-'] (replaceCharL '\u201d' [dquoteChar] (replaceCharL '\u201c' [dquoteChar] (replaceCharL '\u2019' [quoteChar] (replaceCharL '\u2018' [quoteChar] (replaceCharL '\u2014' ['-'] (replaceCharL '\u2013' ['-'] m))))))) hk6 (by decide)
    have hk8 : ('\u2018' : Char) ∉ (replaceCharL '\xa0' [' '] (replaceCharL '\xd7' ['x'] (replaceCharL '\u2022' ['-'] (replaceCharL '\u201d' [dquoteChar] (replaceCharL '\u201c' [dquoteChar] (replaceCharL '\u2019' [quoteChar] (replaceCharL '\u2018' [quoteChar] (replaceCharL '\u2014' ['-'] (replaceCharL '\u2013' ['-'] m))))))))) :=
      not_mem_replaceCharL_of '\u2018' '\xa0' [' '] (replaceCharL '\xd7' ['x'] (replaceCharL '\u2022' ['-'] (replaceCharL '\u201d' [dquoteChar] (replaceCharL '\u201c' [dquoteChar] (replaceCharL '\u2019' [quoteChar] (replaceCharL '\u2018' [quoteChar] (replaceCharL '\u2014' ['-'] (replaceCharL '\u2013' ['-'] m)))))))) hk7 (by decide)
    exact hk8
  · have hk : ('\u2019' : Char) ∉ (replaceCharL '\u2019' [quoteChar] (replaceCharL '\u2018' [quoteChar] (replaceCharL '\u2014' ['-'] (replaceCharL '\u2013' ['-'] m)))) :=
      not_mem_replaceCharL_self '\u2019' [quoteChar] (by decide) (replaceCharL '\u2018' [quoteChar] (replaceCharL '\u2014' ['-'] (replaceCharL '\u2013' ['-'] m)))
    have hk4 : ('\u2019' : Char) ∉ (replaceCharL '\u201c' [dquoteChar] (replaceCharL '\u2019' [quoteChar] (replaceCharL '\u2018' [quoteChar] (replaceCharL '\u2014' ['-'] (replaceCharL '\u2013' ['-'] m))))) :=
      not_mem_replaceCharL_of '\u2019' '\u201c' [dquoteChar] (replaceCharL '\u2019' [quoteChar] (replaceCharL '\u2018' [quoteChar] (replaceCharL '\u2014' ['-'] (replaceCharL '\u2013' ['-'] m)))) hk (by decide)
    have hk5 : ('\u2019' : Char) ∉ (replaceCharL '\u201d' [dquoteChar] (replaceCharL '\u201c' [dquoteChar] (replaceCharL '\u2019' [quoteChar] (replaceCharL '\u2018' [quoteChar] (replaceCharL '\u2014' ['-'] (replaceCharL '\u2013' ['-'] m)))))) :=
      not_mem_replaceCharL_of '\u2019' '\u201d' [dquoteChar] (replaceCharL '\u201c' [dquoteChar] (replaceCharL '\u2019' [quoteChar] (replaceCharL '\u2018' [quoteChar] (replaceCharL '\u2014' ['-'] (replaceCharL '\u2013' ['-'] m))))) hk4 (by decide)
    have hk6 : ('\u2019' : Char) ∉ (replaceCharL '\u2022' ['-'] (replaceCharL '\u201d' [dquoteChar] (replaceCharL '\u201c' [dquoteChar] (replaceCharL '\u2019' [quoteChar] (replaceCharL '\u2018' [quoteChar] (replaceCharL '\u2014' ['-'] (replaceCharL '\u2013' ['-'] m))))))) :=
      not_mem_replaceCharL_of '\u2019' '\u2022' ['-'] (replaceCharL '\u201d' [dquoteChar] (replaceCharL '\u201c' [dquoteChar] (replaceCharL '\u2019' [quoteChar] (replaceCharL '\u2018' [quoteChar] (replaceCharL '\u2014' ['-'] (replaceCharL '\u2013' ['-'] m)))))) hk5 (by decide)
    have hk7 : ('\u2019' : Char) ∉ (replaceCharL '\xd7' ['x'] (replaceCharL '\u2022' ['-'] (replaceCharL '\u201d' [dquoteChar] (replaceCharL '\u201c' [dquoteChar] (replaceCharL '\u2019' [quoteChar] (replaceCharL '\u2018' [quoteChar] (replaceCharL '\u2014' ['-'] (replaceCharL '\u2013' ['-'] m)))))))) :=
      not_mem_replaceCharL_of '\u2019' '\xd7' ['x'] (replaceCharL '\u2022' ['-'] (replaceCharL '\u201d' [dquoteChar] (replaceCharL '\u201c' [dquoteChar] (replaceCharL '\u2019' [quoteChar] (replaceCharL '\u2018' [quoteChar] (replaceCharL '\u2014' ['-'] (replaceCharL '\u2013' ['-'] m))))))) hk6 (by decide)
    have hk8 : ('\u2019' : Char) ∉ (replaceCharL '\xa0' [' '] (replaceCharL '\xd7' ['x'] (replaceCharL '\u2022' ['-'] (replaceCharL '\u201d' [dquoteChar] (replaceCharL '\u201c' [dquoteChar] (replaceCharL '\u2019' [quoteChar] (replaceCharL '\u2018' [quoteChar] (replaceCharL '\u2014' ['-'] (replaceCharL '\u2013' ['-'] m))))))))) :=
      not_mem_replaceCharL_of '\u2019' '\xa0' [' '] (replaceCharL '\xd7' ['x'] (replaceCharL '\u2022' ['-'] (replaceCharL '\u201d' [dquoteChar] (replaceCharL '\u201c' [dquoteChar] (replaceCharL '\u2019' [quoteChar] (replaceCharL '\u2018' [quoteChar] (replaceCharL '\u2014' ['-'] (replaceCharL '\u2013' ['-'] m)))))))) hk7 (by decide)
    exact hk8
  · have hk : ('\u201c' : Char) ∉ (replaceCharL '\u201c' [dquoteChar] (replaceCharL '\u2019' [quoteChar] (replaceCharL '\u2018' [quoteChar] (replaceCharL '\u2014' ['-'] (replaceCharL '\u2013' ['-'] m))))) :=
      not_mem_replaceCharL_self '\u201c' [dquoteChar] (by decide) (replaceCharL '\u2019' [quoteChar] (replaceCharL '\u2018' [quoteChar] (replaceCharL '\u2014' ['-'] (replaceCharL '\u2013' ['-'] m))))
    have hk5 : ('\u201c' : Char) ∉ (replaceCharL '\u201d' [dquoteChar] (replaceCharL '\u201c' [dquoteChar] (replaceCharL '\u2019' [quoteChar] (replaceCharL '\u2018' [quoteChar] (replaceCharL '\u2014' ['-'] (replaceCharL '\u2013' ['-'] m)))))) :=
      not_mem_replaceCharL_of '\u201c' '\u201d' [dquoteChar] (replaceCharL '\u201c' [dquoteChar] (replaceCharL '\u2019' [quoteChar] (replaceCharL '\u2018' [quoteChar] (replaceCharL '\u2014' ['-'] (replaceCharL '\u2013' ['-'] m))))) hk (by decide)
    have hk6 : ('\u201c' : Char) ∉ (replaceCharL '\u2022' ['-'] (replaceCharL '\u201d' [dquoteChar] (replaceCharL '\u201c' [dquoteChar] (replaceCharL '\u2019' [quoteChar] (replaceCharL '\u2018' [quoteChar] (replaceCharL '\u2014' ['-'] (replaceCharL '\u2013' ['-'] m))))))) :=
      not_mem_replaceCharL_of '\u201c' '\u2022' ['-'] (replaceCharL '\u201d' [dquoteChar] (replaceCharL '\u201c' [dquoteChar] (replaceCharL '\u2019' [quoteChar] (replaceCharL '\u2018' [quoteChar] (replaceCharL '\u2014' ['-'] (replaceCharL '\u2013' ['-'] m)))))) hk5 (by decide)
    have hk7 : ('\u201c' : Char) ∉ (replaceCharL '\xd7' ['x'] (replaceCharL '\u2022' ['-'] (replaceCharL '\u201d' [dquoteChar] (replaceCharL '\u201c' [dquoteChar] (replaceCharL '\u2019' [quoteChar] (replaceCharL '\u2018' [quoteChar] (replaceCharL '\u2014' ['-'] (replaceCharL '\u2013' ['-'] m)))))))) :=
      not_mem_replaceCharL_of '\u201c' '\xd7' ['x'] (replaceCharL '\u2022' ['-'] (replaceCharL '\u201d' [dquoteChar] (replaceCharL '\u201c' [dquoteChar] (replaceCharL '\u2019' [quoteChar] (replaceCharL '\u2018' [quoteChar] (replaceCharL '\u2014' ['-'] (replaceCharL '\u2013' ['-'] m))))))) hk6 (by decide)
    have hk8 : ('\u201c' : Char) ∉ (replaceCharL '\xa0' [' '] (replaceCharL '\xd7' ['x'] (replaceCharL '\u2022' ['-'] (replaceCharL '\u201d' [dquoteChar] (replaceCharL '\u201c' [dquoteChar] (replaceCharL '\u2019' [quoteChar] (replaceCharL '\u2018' [quoteChar] (replaceCharL '\u2014' ['-'] (replaceCharL '\u2013' ['-'] m))))))))) :=
      not_mem_replaceCharL_of '\u201c' '\xa0' [' '] (replaceCharL '\xd7' ['x'] (replaceCharL '\u2022' ['-'] (replaceCharL '\u201d' [dquoteChar] (replaceCharL '\u201c' [dquoteChar] (replaceCharL '\u2019' [quoteChar] (replaceCharL '\u2018' [quoteChar] (replaceCharL '\u2014' ['-'] (replaceCharL '\u2013' ['-'] m)))))))) hk7 (by decide)
    exact hk8
  · have hk : ('\u201d' : Char) ∉ (replaceCharL '\u201d' [dquoteChar] (replaceCharL '\u201c' [dquoteChar] (replaceCharL '\u2019' [quoteChar] (replaceCharL '\u2018' [quoteChar] (replaceCharL '\u2014' ['-'] (replaceCharL '\u2013' ['-'] m)))))) :=
      not_mem_replaceCharL_self '\u201d' [dquoteChar] (by decide) (replaceCharL '\u201c' [dquoteChar] (replaceCharL '\u2019' [quoteChar] (replaceCharL '\u2018' [quoteChar] (replaceCharL '\u2014' ['-'] (replaceCharL '\u2013' ['-'] m)))))
    have hk6 : ('\u201d' : Char) ∉ (replaceCharL '\u2022' ['-'] (replaceCharL '\u201d' [dquoteChar] (replaceCharL '\u201c' [dquoteChar] (replaceCharL '\u2019' [quoteChar] (replaceCharL '\u2018' [quoteChar] (replaceCharL '\u2014' ['-'] (replaceCharL '\u2013' ['-'] m))))))) :=
      not_mem_replaceCharL_of '\u201d' '\u2022' ['-'] (replaceCharL '\u201d' [dquoteChar] (replaceCharL '\u201c' [dquoteChar] (replaceCharL '\u2019' [quoteChar] (replaceCharL '\u2018' [quoteChar] (replaceCharL '\u2014' ['-'] (replaceCharL '\u2013' ['-'] m)))))) hk (by decide)
    have hk7 : ('\u201d' : Char) ∉ (replaceCharL '\xd7' ['x'] (replaceCharL '\u2022' ['-'] (replaceCharL '\u201d' [dquoteChar] (replaceCharL '\u201c' [dquoteChar] (replaceCharL '\u2019' [quoteChar] (replaceCharL '\u2018' [quoteChar] (replaceCharL '\u2014' ['-'] (replaceCharL '\u2013' ['-'] m)))))))) :=
      not_mem_replaceCharL_of '\u201d' '\xd7' ['x'] (replaceCharL '\u2022' ['-'] (replaceCharL '\u201d' [dquoteChar] (replaceCharL '\u201c' [dquoteChar] (replaceCharL '\u2019' [quoteChar] (replaceCharL '\u2018' [quoteChar] (replaceCharL '\u2014' ['-'] (replaceCharL '\u2013' ['-'] m))))))) hk6 (by decide)
    have hk8 : ('\u201d' : Char) ∉ (replaceCharL '\xa0' [' '] (replaceCharL '\xd7' ['x'] (replaceCharL '\u2022' ['-'] (replaceCharL '\u201d' [dquoteChar] (replaceCharL '\u201c' [dquoteChar] (replaceCharL '\u2019' [quoteChar] (replaceCharL '\u2018' [quoteChar] (replaceCharL '\u2014' ['-'] (replaceCharL '\u2013' ['-'] m))))))))) :=
      not_mem_replaceCharL_of '\u201d' '\xa0' [' '] (replaceCharL '\xd7' ['x'] (replaceCharL '\u2022' ['-'] (replaceCharL '\u201d' [dquoteChar] (replaceCharL '\u201c' [dquoteChar] (replaceCharL '\u2019' [quoteChar] (replaceCharL '\u2018' [quoteChar] (replaceCharL '\u2014' ['-'] (replaceCharL '\u2013' ['-'] m)))))))) hk7 (by decide)
    exact hk8
  · have hk : ('\u2022' : Char) ∉ (replaceCharL '\u2022' ['-'] (replaceCharL '\u201d' [dquoteChar] (replaceCharL '\u201c' [dquoteChar] (replaceCharL '\u2019' [quoteChar] (replaceCharL '\u2018' [quoteChar] (replaceCharL '\u2014' ['-'] (replaceCharL '\u2013' ['-'] m))))))) :=
      not_mem_replaceCharL_self '\u2022' ['-'] (by decide) (replaceCharL '\u201d' [dquoteChar] (replaceCharL '\u201c' [dquoteChar] (replaceCharL '\u2019' [quoteChar] (replaceCharL '\u2018' [quoteChar] (replaceCharL '\u2014' ['-'] (replaceCharL '\u2013' ['-'] m))))))
    have hk7 : ('\u2022' : Char) ∉ (replaceCharL '\xd7' ['x'] (replaceCharL '\u2022' ['-'] (replaceCharL '\u201d' [dquoteChar] (replaceCharL '\u201c' [dquoteChar] (replaceCharL '\u2019' [quoteChar] (replaceCharL '\u2018' [quoteChar] (replaceCharL '\u2014' ['-'] (replaceCharL '\u2013' ['-'] m)))))))) :=
      not_mem_replaceCharL_of '\u2022' '\xd7' ['x'] (replaceCharL '\u2022' ['-'] (replaceCharL '\u201d' [dquoteChar] (replaceCharL '\u201c' [dquoteChar] (replaceCharL '\u2019' [quoteChar] (replaceCharL '\u2018' [quoteChar] (replaceCharL '\u2014' ['-'] (replaceCharL '\u2013' ['-'] m))))))) hk (by decide)
    have hk8 : ('\u2022' : Char) ∉ (replaceCharL '\xa0' [' '] (replaceCharL '\xd7' ['x'] (replaceCharL '\u2022' ['-'] (replaceCharL '\u201d' [dquoteChar] (replaceCharL '\u201c' [dquoteChar] (replaceCharL '\u2019' [quoteChar] (replaceCharL '\u2018' [quoteChar] (replaceCharL '\u2014' ['-'] (replaceCharL '\u2013' ['-'] m))))))))) :=
      not_mem_replaceCharL_of '\u2022' '\xa0' [' '] (replaceCharL '\xd7' ['x'] (replaceCharL '\u2022' ['-'] (replaceCharL '\u201d' [dquoteChar] (replaceCharL '\u201c' [dquoteChar] (replaceCharL '\u2019' [quoteChar] (replaceCharL '\u2018' [quoteChar] (replaceCharL '\u2014' ['-'] (replaceCharL '\u2013' ['-'] m)))))))) hk7 (by decide)
    exact hk8
  · have hk : ('\xd7' : Char) ∉ (replaceCharL '\xd7' ['x'] (replaceCharL '\u2022' ['-'] (replaceCharL '\u201d' [dquoteChar] (replaceCharL '\u201c' [dquoteChar] (replaceCharL '\u2019' [quoteChar] (replaceCharL '\u2018' [quoteChar] (replaceCharL '\u2014' ['-'] (replaceCharL '\u2013' ['-'] m)))))))) :=
      not_mem_replaceCharL_self '\xd7' ['x'] (by decide) (replaceCharL '\u2022' ['-'] (replaceCharL '\u201d' [dquoteChar] (replaceCharL '\u201c' [dquoteChar] (replaceCharL '\u2019' [quoteChar] (replaceCharL '\u2018' [quoteChar] (replaceCharL '\u2014' ['-'] (replaceCharL '\u2013' ['-'] m)))))))
    have hk8 : ('\xd7' : Char) ∉ (replaceCharL '\xa0' [' '] (replaceCharL '\xd7' ['x'] (replaceCharL '\u2022' ['-'] (replaceCharL '\u201d' [dquoteChar] (replaceCharL '\u201c' [dquoteChar] (replaceCharL '\u2019' [quoteChar] (replaceCharL '\u2018' [quoteChar] (replaceCharL '\u2014' ['-'] (replaceCharL '\u2013' ['-'] m))))))))) :=
      not_mem_replaceCharL_of '\xd7' '\xa0' [' '] (replaceCharL '\xd7' ['x'] (replaceCharL '\u2022' ['-'] (replaceCharL '\u201d' [dquoteChar] (replaceCharL '\u201c' [dquoteChar] (replaceCharL '\u2019' [quoteChar] (replaceCharL '\u2018' [quoteChar] (replaceCharL '\u2014' ['-'] (replaceCharL '\u2013' ['-'] m)))))))) hk (by decide)
    exact hk8
  · have hk : ('\xa0' : Char) ∉ (replaceCharL '\xa0' [' '] (replaceCharL '\xd7' ['x'] (replaceCharL '\u2022' ['-'] (replaceCharL '\u201d' [dquoteChar] (replaceCharL '\u201c' [dquoteChar] (replaceCharL '\u2019' [quoteChar] (replaceCharL '\u2018' [quoteChar] (replaceCharL '\u2014' ['-'] (replaceCharL '\u2013' ['-'] m))))))))) :=
      not_mem_replaceCharL_self '\xa0' [' '] (by decide) (replaceCharL '\xd7' ['x'] (replaceCharL '\u2022' ['-'] (replaceCharL '\u201d' [dquoteChar] (replaceCharL '\u201c' [dquoteChar] (replaceCharL '\u2019' [quoteChar] (replaceCharL '\u2018' [quoteChar] (replaceCharL '\u2014' ['-'] (replaceCharL '\u2013' ['-'] m))))))))
    exact hk

/-- A character absent after BOM/NUL stripping and absent from every string
the later stages can insert never occurs in the sanitized output. -/
theorem sanitizeStages_no_strip_killed (a : Char) (t : List Char)
    (h1 : a ∉ stripBomNul t)
    (hdc : a ∉ dcTok) (hup : a ∉ upTok) (hnl : a ≠ '\n')
    (hx : a ≠ 'x') (hpm : a ∉ "+/-".toList)
    (hnorm : a ∉ ['-', quoteChar, dquoteChar, 'x', ' '])
    (hesc : a ∉ (repAmp ++ repPercent ++ repDollar ++ repHash ++ repUnderscore ++ repCircum ++ repTilde)) :
    a ∉ sanitizeStages t := by
  intro h
  unfold sanitizeStages at h
  rcases mem_escapeL a _ h with h | hr
  · rcases mem_normalizeL a _ h with h | hr
    · rcases mem_lineRepair a _ h with h | hr | hr | hr
      · have h2 := mem_sliceEnd a _ h
        have h3 := mem_sliceStart a _ h2
        have h4 := mem_dropTrailingFence a _ h3
        have h5 := mem_dropLeadingFence a _ h4
        unfold replaceMathCmds replaceL at h5
        rcases mem_replaceFuel a pmTok "+/-".toList _ _ h5 with h6 | hr
        · rcases mem_replaceFuel a timesTok ['x'] _ _ h6 with h7 | hr
          · exact h1 (mem_pyStrip a _ h7)
          · rw [List.mem_singleton] at hr; exact hx hr
        · exact hpm hr
      · exact hdc hr
      · exact hup hr
      · exact hnl hr
    · exact hnorm hr
  · exact hesc hr

/-- The sanitized output contains no byte-order mark. -/
theorem sanitize_no_bom (t : List Char) : '﻿' ∉ sanitizeStages t := by
  apply sanitizeStages_no_strip_killed '﻿' t ?h1 (by decide) (by decide) (by decide)
    (by decide) (by decide) (by decide) (by decide)
  unfold stripBomNul
  exact not_mem_replaceCharL_of '﻿' '\x00' [] _
    (not_mem_replaceCharL_self '﻿' [] (by decide) t) (by decide)

/-- The sanitized output contains no null byte. -/
theorem sanitize_no_nul (t : List Char) : '\x00' ∉ sanitizeStages t := by
  apply sanitizeStages_no_strip_killed '\x00' t ?h1 (by decide) (by decide) (by decide)
    (by decide) (by decide) (by decide) (by decide)
  unfold stripBomNul
  exact not_mem_replaceCharL_self '\x00' [] (by decide) _

/-- The sanitized output contains none of the typographic code points. -/
theorem sanitize_no_typo (c : Char) (hc : c ∈ typographicChars) (t : List Char) :
    c ∉ sanitizeStages t := by
  intro h
  unfold sanitizeStages at h
  rcases mem_escapeL c _ h with h | hr
  · exact not_mem_normalizeL_typo c hc _ h
  · simp only [typographicChars, List.mem_cons, List.not_mem_nil, or_false] at hc
    rcases hc with rfl | rfl | rfl | rfl | rfl | rfl | rfl | rfl | rfl <;> revert hr <;> decide

theorem toList_asString (l : List Char) : (List.asString l).toList = l := rfl

set_option maxHeartbeats 1000000 in
/-- C6 (amended): the sanitizer fails exactly when the fully-processed text —
after BOM/NUL stripping, math-command replacement, fence removal, slicing to
the marker span, first-line repair, Unicode normalization and escaping —
does not, after stripping leading whitespace, begin with `\documentclass`,
or does not contain `\end{document}`; and every successful output satisfies:
its left-stripped form starts with the opening marker, it contains the
closing marker, and it holds no BOM, no null byte, and none of the nine
typographic code points. -/
theorem C6_sanitizer_contract (t : String) :
    ((∃ e, sanitize_latex t = Except.error e) ↔
      ¬(dcTok.isPrefixOf (pyLstrip (sanitizeStages t.toList)) = true ∧
        containsL edTok (sanitizeStages t.toList) = true))
    ∧ (∀ out, sanitize_latex t = Except.ok out →
        dcTok.isPrefixOf (pyLstrip out.toList) = true ∧
        containsL edTok out.toList = true ∧
        '\ufeff' ∉ out.toList ∧ '\x00' ∉ out.toList ∧
        ∀ c ∈ typographicChars, c ∉ out.toList) := by
  constructor
  · constructor
    · rintro ⟨e, he⟩
      unfold sanitize_latex at he
      dsimp only at he
      split at he
      · next h1 => exact fun hab => h1 hab.1
      · next h1 =>
        split at he
        · next h2 => exact fun hab => h2 hab.2
        · exact Except.noConfusion he
    · intro hc
      unfold sanitize_latex
      dsimp only
      split
      · exact ⟨_, rfl⟩
      · next h1 =>
        split
        · exact ⟨_, rfl⟩
        · next h2 => exact absurd ⟨not_not.mp h1, not_not.mp h2⟩ hc
  · intro out hout
    unfold sanitize_latex at hout
    dsimp only at hout
    split at hout
    · exact Except.noConfusion hout
    · next h1 =>
      split at hout
      · exact Except.noConfusion hout
      · next h2 =>
        injection hout with hinj
        subst hinj
        simp only [toList_asString]
        exact ⟨not_not.mp h1, not_not.mp h2, sanitize_no_bom t.toList,
          sanitize_no_nul t.toList, fun c hc => sanitize_no_typo c hc t.toList⟩

/-- Witness for C6's amended contract at a concrete well-formed input. -/
theorem C6_sanitizer_contract_witness :
    dcTok.isPrefixOf (pyLstrip (("\\documentclass\n\\begin\x7bdocument\x7d\nhello\n\\end\x7bdocument\x7d" : String).toList)) = true ∧
    containsL edTok (("\\documentclass\n\\begin\x7bdocument\x7d\nhello\n\\end\x7bdocument\x7d" : String).toList) = true ∧
    '﻿' ∉ (("\\documentclass\n\\begin\x7bdocument\x7d\nhello\n\\end\x7bdocument\x7d" : String).toList) ∧
    '\x00' ∉ (("\\documentclass\n\\begin\x7bdocument\x7d\nhello\n\\end\x7bdocument\x7d" : String).toList) ∧
    ∀ c ∈ typographicChars,
      c ∉ (("\\documentclass\n\\begin\x7bdocument\x7d\nhello\n\\end\x7bdocument\x7d" : String).toList) :=
  (C6_sanitizer_contract "\\documentclass\n\\begin\x7bdocument\x7d\nhello\n\\end\x7bdocument\x7d").2
    "\\documentclass\n\\begin\x7bdocument\x7d\nhello\n\\end\x7bdocument\x7d" (by decide)

/-- C6 counterexample to the claim as stated: on the input
`"```\n documentclass{a}\nx\end{document}"` the text after slicing does not
begin with `\documentclass` (the backslash is missing), yet the sanitizer
succeeds because the first-line repair inserts the backslash afterwards; and
the accepted output begins with a space, not with the opening marker. -/
theorem C6_counterexample_sanitizer :
    sanitize_latex "\x60\x60\x60\n documentclass\x7ba\x7d\nx\\end\x7bdocument\x7d" =
      Except.ok " \\documentclass\x7ba\x7d\nx\\end\x7bdocument\x7d" ∧
    dcTok.isPrefixOf
      (sliceEnd (sliceStart (dropTrailingFence (dropLeadingFence (replaceMathCmds
        (pyStrip (stripBomNul ("\x60\x60\x60\n documentclass\x7ba\x7d\nx\\end\x7bdocument\x7d" : String).toList))))))) = false ∧
    dcTok.isPrefixOf (" \\documentclass\x7ba\x7d\nx\\end\x7bdocument\x7d" : String).toList = false :=
  ⟨by decide, by decide, by decide⟩

/-! ### Branch lemmas for the per-record control flow -/

theorem processRecord_of_prep_error (master c1 c2 : String) (e : PipeErr)
    (h : prepFirst master c1 = Except.error e) :
    processRecord master c1 c2 = (Except.error e, 1) := by
  unfold processRecord
  rw [h]

theorem processRecord_of_markers_error (master c1 c2 merged : String) (e : PipeErr)
    (hp : prepFirst master c1 = Except.ok merged)
    (hm : require_same_section_markers master merged = Except.error e) :
    processRecord master c1 c2 = (Except.error e, 1) := by
  unfold processRecord
  rw [hp]
  dsimp only
  rw [hm]

theorem processRecord_of_bullet_error (master c1 c2 merged : String) (e : PipeErr)
    (hp : prepFirst master c1 = Except.ok merged)
    (hm : require_same_section_markers master merged = Except.ok ())
    (hb : require_bullet_count_stable master merged 10 10 = Except.error e) :
    processRecord master c1 c2 = (retryPath master c2, 2) := by
  unfold processRecord
  rw [hp]
  dsimp only
  rw [hm]
  dsimp only
  rw [hb]

theorem processRecord_of_checks_ok (master c1 c2 merged : String)
    (hp : prepFirst master c1 = Except.ok merged)
    (hm : require_same_section_markers master merged = Except.ok ())
    (hb : require_bullet_count_stable master merged 10 10 = Except.ok ())
    (hl : (looks_like_latex_resume merged).1 = true) :
    processRecord master c1 c2 = (Except.ok merged, 1) := by
  unfold processRecord
  rw [hp]
  dsimp only
  rw [hm]
  dsimp only
  rw [hb]
  dsimp only
  rw [if_pos hl]

theorem retryPath_eval_ok (master c2 t2 : String)
    (hne : ¬ c2 = "")
    (hs : sanitize_latex c2 = Except.ok t2)
    (hm : require_same_section_markers master t2 = Except.ok ())
    (hb : require_bullet_count_stable master t2 10 10 = Except.ok ())
    (hl : (looks_like_latex_resume t2).1 = true) :
    retryPath master c2 = Except.ok t2 := by
  unfold retryPath
  rw [if_neg hne, hs]
  dsimp only
  rw [hm]
  dsimp only
  rw [hb]
  dsimp only
  rw [if_pos hl]

theorem markers_ok_of (master tailored : String)
    (h1 : firstMissingMarker tailored = none)
    (h2 : firstMissingMarker master = none) :
    require_same_section_markers master tailored = Except.ok () := by
  unfold require_same_section_markers
  rw [h1, h2]

theorem markers_err_of (master tailored : String) (m : String)
    (h1 : firstMissingMarker tailored = some m) :
    require_same_section_markers master tailored =
      Except.error (PipeErr.missingSectionMarker m) := by
  unfold require_same_section_markers
  rw [h1]

theorem markers_master_err_of (master tailored : String) (m : String)
    (h1 : firstMissingMarker tailored = none)
    (h2 : firstMissingMarker master = some m) :
    require_same_section_markers master tailored =
      Except.error (PipeErr.masterMissingSectionMarker m) := by
  unfold require_same_section_markers
  rw [h1, h2]

theorem bullet_ok_of_master (tailored : String)
    (h : ¬((count_itemize_items tailored : Int) < ((29 : Nat) : Int) - 10 ∨
           (count_itemize_items tailored : Int) > ((29 : Nat) : Int) + 10)) :
    require_bullet_count_stable MASTER_LATEX tailored 10 10 = Except.ok () := by
  unfold require_bullet_count_stable
  rw [count_master_items]
  dsimp only
  rw [if_neg h]

theorem bullet_err_of_master (tailored : String)
    (h : (count_itemize_items tailored : Int) < ((29 : Nat) : Int) - 10 ∨
         (count_itemize_items tailored : Int) > ((29 : Nat) : Int) + 10) :
    require_bullet_count_stable MASTER_LATEX tailored 10 10 =
      Except.error (PipeErr.bulletCountDrift ((29 : Nat) : Int) (count_itemize_items tailored)) := by
  unfold require_bullet_count_stable
  rw [count_master_items]
  dsimp only
  rw [if_pos h]

/-! ### Error-shape lemmas: no pipeline branch reports a fabricated entry -/

theorem sanitize_ne_fabricated (t : String) (ns : List String) :
    sanitize_latex t ≠ Except.error (PipeErr.fabricatedEntries ns) := by
  unfold sanitize_latex
  dsimp only
  split
  · intro h; injection h with h2; exact PipeErr.noConfusion h2
  · split
    · intro h; injection h with h2; exact PipeErr.noConfusion h2
    · intro h; exact Except.noConfusion h

theorem merge_ne_fabricated (master t : String) (ns : List String) :
    merge_with_master_preamble master t ≠ Except.error (PipeErr.fabricatedEntries ns) := by
  unfold merge_with_master_preamble
  split
  · intro h; injection h with h2; exact PipeErr.noConfusion h2
  · intro h; exact Except.noConfusion h

theorem prepFirst_ne_fabricated (master c1 : String) (ns : List String) :
    prepFirst master c1 ≠ Except.error (PipeErr.fabricatedEntries ns) := by
  unfold prepFirst
  split
  · intro h; injection h with h2; exact PipeErr.noConfusion h2
  · split
    · next e heq =>
      intro h
      injection h with h2
      rw [h2] at heq
      exact sanitize_ne_fabricated c1 ns heq
    · exact merge_ne_fabricated master _ ns

theorem markers_ne_fabricated (master t : String) (ns : List String) :
    require_same_section_markers master t ≠ Except.error (PipeErr.fabricatedEntries ns) := by
  unfold require_same_section_markers
  split
  · intro h; injection h with h2; exact PipeErr.noConfusion h2
  · split
    · intro h; injection h with h2; exact PipeErr.noConfusion h2
    · intro h; exact Except.noConfusion h

theorem bullet_ne_fabricated (master t : String) (d a : Int) (ns : List String) :
    require_bullet_count_stable master t d a ≠ Except.error (PipeErr.fabricatedEntries ns) := by
  unfold require_bullet_count_stable
  dsimp only
  split
  · intro h; injection h with h2; exact PipeErr.noConfusion h2
  · intro h; exact Except.noConfusion h

theorem retryPath_ne_fabricated (master c2 : String) (ns : List String) :
    retryPath master c2 ≠ Except.error (PipeErr.fabricatedEntries ns) := by
  unfold retryPath
  split
  · intro h; injection h with h2; exact PipeErr.noConfusion h2
  · split
    · next e heq =>
      intro h
      injection h with h2
      rw [h2] at heq
      exact sanitize_ne_fabricated c2 ns heq
    · split
      · next e heq =>
        intro h
        injection h with h2
        rw [h2] at heq
        exact markers_ne_fabricated master _ ns heq
      · split
        · next e heq =>
          intro h
          injection h with h2
          rw [h2] at heq
          exact bullet_ne_fabricated master _ 10 10 ns heq
        · split
          · intro h; exact Except.noConfusion h
          · intro h; injection h with h2; exact PipeErr.noConfusion h2

theorem processRecord_ne_fabricated (master c1 c2 : String) (ns : List String) :
    (processRecord master c1 c2).1 ≠ Except.error (PipeErr.fabricatedEntries ns) := by
  unfold processRecord
  split
  · next e heq =>
    intro h
    dsimp only at h
    rw [h] at heq
    exact prepFirst_ne_fabricated master c1 ns heq
  · next merged heq =>
    split
    · next e heq2 =>
      intro h
      dsimp only at h
      injection h with h2
      rw [h2] at heq2
      exact markers_ne_fabricated master merged ns heq2
    · split
      · intro h
        dsimp only at h
        exact retryPath_ne_fabricated master c2 ns h
      · split
        · intro h; dsimp only at h; exact Except.noConfusion h
        · intro h
          dsimp only at h
          injection h with h2
          exact PipeErr.noConfusion h2

/-- C4 (amended): the pipeline's effective enforcement order differs from the
claimed one: a sanitizer failure is reported first; then the section-marker
check decides, even when the document's delimiters are unbalanced (the
shape/balance verdict of `looks_like_latex_resume` is computed earlier but
only enforced after the bullet stage); and the no-new-entries check is never
invoked: no processed record ever reports a fabricated-entry failure. -/
theorem C4_effective_check_order :
    (∀ (master c1 c2 : String) (e : PipeErr), ¬ c1 = "" →
      sanitize_latex c1 = Except.error e →
      processRecord master c1 c2 = (Except.error e, 1)) ∧
    (∀ (master c1 c2 merged : String) (e : PipeErr),
      prepFirst master c1 = Except.ok merged →
      require_same_section_markers master merged = Except.error e →
      processRecord master c1 c2 = (Except.error e, 1)) ∧
    (∀ (master c1 c2 : String) (ns : List String),
      (processRecord master c1 c2).1 ≠ Except.error (PipeErr.fabricatedEntries ns)) := by
  refine ⟨?_, ?_, ?_⟩
  · intro master c1 c2 e hne hs
    apply processRecord_of_prep_error
    unfold prepFirst
    rw [if_neg hne, hs]
  · intro master c1 c2 merged e hp hm
    exact processRecord_of_markers_error master c1 c2 merged e hp hm
  · intro master c1 c2 ns
    exact processRecord_ne_fabricated master c1 c2 ns

/-- Witness for C4's amended order at concrete inputs: a candidate that is
not valid LaTeX is reported with the sanitizer's failure, and a candidate
whose merged form misses a marker is reported with the marker failure. -/
theorem C4_effective_check_order_witness :
    processRecord "" "x" "" = (Except.error (PipeErr.missingStartMarker "x"), 1) ∧
    processRecord c9master c9cand "x" =
      (Except.error (PipeErr.missingSectionMarker skillsMarker), 1) ∧
    (processRecord "" "x" "").1 ≠ Except.error (PipeErr.fabricatedEntries []) :=
  ⟨C4_effective_check_order.1 "" "x" "" (PipeErr.missingStartMarker "x") (by decide) (by decide),
   C4_effective_check_order.2.1 c9master c9cand "x"
     (merged_c9 : String) (PipeErr.missingSectionMarker skillsMarker) (by decide) (by decide),
   C4_effective_check_order.2.2 "" "x" "" []⟩

/-- C4 counterexample to the claimed fixed order: this candidate's merged
document has unbalanced braces (the claimed check 2), yet the reported
failure is the missing SKILLS section marker (the claimed check 3), because
the marker guard raises before the shape/balance verdict is consulted. -/
theorem C4_counterexample_order :
    (looks_like_latex_resume mergedNoMk).1 = false ∧
    processRecord MASTER_LATEX candNoMk "" =
      (Except.error (PipeErr.missingSectionMarker skillsMarker), 1) := by
  refine ⟨by decide, ?_⟩
  have hprep : prepFirst MASTER_LATEX candNoMk = Except.ok mergedNoMk := by decide
  exact processRecord_of_markers_error MASTER_LATEX candNoMk "" mergedNoMk _
    hprep (markers_err_of MASTER_LATEX mergedNoMk skillsMarker (by decide))

/-- C3 (amended): corrective regeneration is triggered exactly when the
first attempt passes the sanitizer/merger and the section-marker guard and
fails the bullet-count check, and the retried attempt's verdict is the pure
value of `retryPath` — no further generation.  Sanitizer and marker failures
terminate with one generation call.  However, the shape/balance verdict of
`looks_like_latex_resume` is only enforced after the bullet stage, so a
first attempt with unbalanced delimiters can still trigger regeneration and
even be accepted (see the counterexample). -/
theorem C3_retry_exactly_on_bullet_drift :
    (∀ (master c1 c2 merged : String) (e : PipeErr),
      prepFirst master c1 = Except.ok merged →
      require_same_section_markers master merged = Except.ok () →
      require_bullet_count_stable master merged 10 10 = Except.error e →
      processRecord master c1 c2 = (retryPath master c2, 2)) ∧
    (∀ (master c1 c2 merged : String),
      prepFirst master c1 = Except.ok merged →
      require_same_section_markers master merged = Except.ok () →
      require_bullet_count_stable master merged 10 10 = Except.ok () →
      (processRecord master c1 c2).2 = 1) ∧
    (∀ (master c1 c2 : String) (e : PipeErr),
      prepFirst master c1 = Except.error e →
      processRecord master c1 c2 = (Except.error e, 1)) ∧
    (∀ (master c1 c2 merged : String) (e : PipeErr),
      prepFirst master c1 = Except.ok merged →
      require_same_section_markers master merged = Except.error e →
      processRecord master c1 c2 = (Except.error e, 1)) := by
  refine ⟨?_, ?_, ?_, ?_⟩
  · intro master c1 c2 merged e hp hm hb
    exact processRecord_of_bullet_error master c1 c2 merged e hp hm hb
  · intro master c1 c2 merged hp hm hb
    unfold processRecord
    rw [hp]
    dsimp only
    rw [hm]
    dsimp only
    rw [hb]
    dsimp only
    split <;> rfl
  · intro master c1 c2 e hp
    exact processRecord_of_prep_error master c1 c2 e hp
  · intro master c1 c2 merged e hp hm
    exact processRecord_of_markers_error master c1 c2 merged e hp hm

/-- Witness for C3's amended characterization at concrete inputs: a
bullet-drift first attempt yields the retry outcome with two generation
calls, and a sanitizer failure terminates with one. -/
theorem C3_retry_exactly_on_bullet_drift_witness :
    processRecord c3wMaster C7wCand "" = (retryPath c3wMaster "", 2) ∧
    processRecord "" "x" "" = (Except.error (PipeErr.missingStartMarker "x"), 1) :=
  ⟨C3_retry_exactly_on_bullet_drift.1 c3wMaster C7wCand "" c3wMerged
     (PipeErr.bulletCountDrift 11 0) (by decide) (by decide) (by decide),
   C3_retry_exactly_on_bullet_drift.2.2.1 "" "x" ""
     (PipeErr.missingStartMarker "x") (by decide)⟩

/-- C3 counterexample to the claim as stated: this first attempt's merged
document has unbalanced braces — an `UnbalancedDelimiters`-class failure,
which the claim says terminates the record with that failure and no
regeneration — yet the pipeline regenerates (two calls) and accepts the
retried candidate, never reporting the balance failure. -/
theorem C3_counterexample_balance_failure_retried :
    prepFirst MASTER_LATEX candUnbal = Except.ok mergedUnbal ∧
    (looks_like_latex_resume mergedUnbal).1 = false ∧
    processRecord MASTER_LATEX candUnbal candAlien = (Except.ok candAlien, 2) := by
  have hprep : prepFirst MASTER_LATEX candUnbal = Except.ok mergedUnbal := by decide
  refine ⟨hprep, by decide, ?_⟩
  have hmk : require_same_section_markers MASTER_LATEX mergedUnbal = Except.ok () :=
    markers_ok_of MASTER_LATEX mergedUnbal (by decide) master_markers_none
  have hbul := bullet_err_of_master mergedUnbal (by decide)
  rw [processRecord_of_bullet_error MASTER_LATEX candUnbal candAlien mergedUnbal _ hprep hmk hbul]
  have hretry : retryPath MASTER_LATEX candAlien = Except.ok candAlien :=
    retryPath_eval_ok MASTER_LATEX candAlien candAlien (by decide) (by decide)
      (markers_ok_of MASTER_LATEX candAlien (by decide) master_markers_none)
      (bullet_ok_of_master candAlien (by decide)) (by decide)
  rw [hretry]

/-- C9 (amended): a reference missing a required marker is detected only
after the candidate passes the marker check — if the candidate contains all
three markers it is classified `pipeline_error` (`masterMissingSectionMarker`),
but if the candidate also lacks one, the failure is classified as a candidate
`mutation_violation` — and in every case the failure is recorded on that
record while the run continues: the loop processes every record (no abort). -/
theorem C9_config_error_classification :
    (∀ master tailored : String,
      containsL skillsMarker.toList tailored.toList = true →
      containsL experienceMarker.toList tailored.toList = true →
      containsL projectsMarker.toList tailored.toList = true →
      containsL skillsMarker.toList master.toList = false →
      require_same_section_markers master tailored =
        Except.error (PipeErr.masterMissingSectionMarker skillsMarker)) ∧
    (∀ (master : String) (recs : List (String × String)),
      (runPipeline master recs).length = recs.length) := by
  constructor
  · intro master tailored h1 h2 h3 hm
    have h1d : containsL skillsMarker.data tailored.data = true := h1
    have h2d : containsL experienceMarker.data tailored.data = true := h2
    have h3d : containsL projectsMarker.data tailored.data = true := h3
    have hmd : containsL skillsMarker.data master.data = false := hm
    unfold require_same_section_markers firstMissingMarker
    simp [requiredMarkers, List.filter, h1d, h2d, h3d, hmd]
  · intro master recs
    unfold runPipeline
    exact List.length_map recs _

/-- Witness for C9's amended classification at concrete inputs. -/
theorem C9_config_error_classification_witness :
    require_same_section_markers "x" c9wTailored =
      Except.error (PipeErr.masterMissingSectionMarker skillsMarker) ∧
    (runPipeline "x" [("", "")]).length = 1 :=
  ⟨C9_config_error_classification.1 "x" c9wTailored
     (by decide) (by decide) (by decide) (by decide),
   C9_config_error_classification.2 "x" [("", "")]⟩

/-- C9 counterexample to the claim as stated: with a reference that lacks
the section markers and a candidate that also lacks them, the failure is
classified as a candidate `mutation_violation` (`missingSectionMarker`), not
as a pipeline-configuration error; it is recorded as an error on the single
record, and the run continues to process the next record identically rather
than aborting or flagging it differently. -/
theorem C9_counterexample_config_error :
    processRecord c9master c9cand "" =
      (Except.error (PipeErr.missingSectionMarker skillsMarker), 1) ∧
    runPipeline c9master [(c9cand, ""), (c9cand, "")] =
      [(Except.error (PipeErr.missingSectionMarker skillsMarker), 1),
       (Except.error (PipeErr.missingSectionMarker skillsMarker), 1)] :=
  ⟨by decide, by decide⟩

/-- C1 (code at fault): the pipeline accepts this candidate on the first
attempt even though its body introduces the bold entry `Fabricated Corp`,
absent from the reference, with bullet count exactly matching the reference;
`require_no_new_companies` would have rejected it, but `main` never invokes
that guard. -/
theorem C1_fabricated_entry_accepted :
    processRecord MASTER_LATEX candFabricated "" = (Except.ok mergedFabricated, 1) ∧
    "Fabricated Corp" ∈ textbfArgs mergedFabricated ∧
    "Fabricated Corp" ∉ textbfArgs MASTER_LATEX ∧
    count_itemize_items mergedFabricated = 29 ∧
    require_no_new_companies MASTER_LATEX mergedFabricated =
      Except.error (PipeErr.fabricatedEntries ["Fabricated Corp"]) := by
  have hprep : prepFirst MASTER_LATEX candFabricated = Except.ok mergedFabricated := by decide
  have hmk := markers_ok_of MASTER_LATEX mergedFabricated (by decide) master_markers_none
  have hbul := bullet_ok_of_master mergedFabricated (by decide)
  refine ⟨processRecord_of_checks_ok MASTER_LATEX candFabricated "" mergedFabricated
    hprep hmk hbul (by decide), by decide, ?_, by decide, ?_⟩
  · rw [textbf_master]
    decide
  · unfold require_no_new_companies
    rw [textbf_master]
    decide

/-- C2 (code at fault): a bullet-drift first attempt triggers the corrective
retry, whose branch in `main` re-runs the sanitizer and the validators but
never calls `merge_with_master_preamble`; the accepted retried document is
the sanitized candidate itself, and its preamble is the candidate's own
`[11pt]{article}` preamble, not the reference's. -/
theorem C2_retry_keeps_candidate_preamble :
    processRecord MASTER_LATEX candDrift candAlien = (Except.ok candAlien, 2) ∧
    preambleOf candAlien =
      some "\\documentclass[11pt]\x7barticle\x7d\n\\begin\x7bdocument\x7d" ∧
    masterPreamble ≠ "\\documentclass[11pt]\x7barticle\x7d\n\\begin\x7bdocument\x7d" := by
  have hprep : prepFirst MASTER_LATEX candDrift = Except.ok mergedDrift := by decide
  have hmk := markers_ok_of MASTER_LATEX mergedDrift (by decide) master_markers_none
  have hbul := bullet_err_of_master mergedDrift (by decide)
  refine ⟨?_, by decide, by decide⟩
  rw [processRecord_of_bullet_error MASTER_LATEX candDrift candAlien mergedDrift _ hprep hmk hbul]
  rw [retryPath_eval_ok MASTER_LATEX candAlien candAlien (by decide) (by decide)
    (markers_ok_of MASTER_LATEX candAlien (by decide) master_markers_none)
    (bullet_ok_of_master candAlien (by decide)) (by decide)]
